import Mathlib

/-!
# vbody spine session: a shallow embedding of `pkg/vbody/spine.go`

The Go package keeps its session in package-level variables and talks to the
body board through four C entry points (`spine_full_init`, `iterate`,
`spine_full_update`, `close_spine`).  Here the package variables and the C
library are one explicit state value `World`; every exported function is a
state transformer on it.  The acquisition goroutine and the button goroutine
started by `startCommsLoop` are modelled by one iteration function each, over
a state `Comms` that adds the goroutine locals to the world; a schedule is a
list of goroutine iterations and consumer receives.  The ticker goroutine
that writes the commanded state with `spine_full_update` reads the session
and changes none of it; it is not modelled.  Logging (`fmt.Println`) and
sleeping (`time.Sleep`) have no effect on the state and are left out.

Machine integers are `Nat` (unsigned) and `Int` (signed); every Go conversion
and every arithmetic operation that can wrap is written with an explicit
reduction modulo `2^w`.
-/

namespace Vbody

/-! ## Machine integers -/

/-- Reduction of an integer to the signed 16-bit range (Go `int16` wraparound). -/
def wrapI16 (x : Int) : Int := (x + 32768) % 65536 - 32768

/-- Reduction of an integer to the signed 32-bit range (Go `int32` wraparound). -/
def wrapI32 (x : Int) : Int := (x + 2147483648) % 4294967296 - 2147483648

/-- Conversion to `uint8`. -/
def toU8 (n : Nat) : Nat := n % 256

/-- Conversion to `uint16`. -/
def toU16 (n : Nat) : Nat := n % 65536

/-- Conversion to `uint32`. -/
def toU32 (n : Nat) : Nat := n % 4294967296

/-- Values of Go type `int16`. -/
def IsI16 (x : Int) : Prop := -32768 ≤ x ∧ x ≤ 32767

/-- Values of C type `int32_t`. -/
def IsI32 (x : Int) : Prop := -2147483648 ≤ x ∧ x ≤ 2147483647

instance (x : Int) : Decidable (IsI16 x) := by unfold IsI16; infer_instance

instance (x : Int) : Decidable (IsI32 x) := by unfold IsI32; infer_instance

/-! ## Frames -/

/-- The C struct `spine_motorstatus_t`: `int32_t pos; int32_t dlt; uint32_t tm`. -/
structure SpineMotorStatus where
  pos : Int
  dlt : Int
  tm : Nat

/-- The C struct `spine_dataframe_t` as the comment at the end of `spine.go`
declares it (lines 311 to 336), restricted to the fields `readFrame` reads.
`motors` and `cliff_sensor` are arrays of 4, `mic_data` is an array of 320. -/
structure SpineDataFrame where
  seq : Nat
  motors : Fin 4 → SpineMotorStatus
  cliff_sensor : Fin 4 → Nat
  battery_voltage : Int
  charger_voltage : Int
  body_temp : Int
  prox_sigma_mm : Nat
  prox_raw_range_mm : Nat
  prox_signal_rate_mcps : Nat
  prox_ambient : Nat
  prox_SPAD_count : Nat
  prox_sample_count : Nat
  prox_calibration_result : Nat
  touch_sensor : Nat
  buttton_state : Nat
  mic_data : Fin 320 → Nat

/-- Every field of the raw frame lies in the range of its C type. -/
structure SpineDataFrame.WF (df : SpineDataFrame) : Prop where
  seq : df.seq < 4294967296
  pos : ∀ i, IsI32 (df.motors i).pos
  dlt : ∀ i, IsI32 (df.motors i).dlt
  tm : ∀ i, (df.motors i).tm < 4294967296
  cliff_sensor : ∀ i, df.cliff_sensor i < 65536
  battery_voltage : IsI16 df.battery_voltage
  charger_voltage : IsI16 df.charger_voltage
  body_temp : IsI16 df.body_temp
  prox_sigma_mm : df.prox_sigma_mm < 256
  prox_raw_range_mm : df.prox_raw_range_mm < 65536
  prox_signal_rate_mcps : df.prox_signal_rate_mcps < 65536
  prox_ambient : df.prox_ambient < 65536
  prox_SPAD_count : df.prox_SPAD_count < 65536
  prox_sample_count : df.prox_sample_count < 65536
  prox_calibration_result : df.prox_calibration_result < 4294967296
  touch_sensor : df.touch_sensor < 65536
  buttton_state : df.buttton_state < 65536
  mic_data : ∀ i, df.mic_data i < 65536

/-- One element of the Go array type `MotorStatus`. -/
structure MotorStat where
  Pos : Int
  DLT : Int
  TM : Nat
deriving DecidableEq, Repr

/-- The Go struct `DataFrame`. -/
structure DataFrame where
  Seq : Nat
  Cliffs : Fin 4 → Nat
  Encoders : Fin 4 → MotorStat
  BattVoltage : Int
  ChargerVoltage : Int
  BodyTemp : Int
  Touch : Nat
  ButtonState : Bool
  MicData : List Int
  ProxSigmaMM : Nat
  ProxRawRangeMM : Nat
  ProxSignalRateMCPS : Nat
  ProxAmbient : Nat
  ProxSPADCount : Nat
  ProxSampleCount : Nat
  ProxCalibResult : Nat

/-- The Go zero value `DataFrame{}`: every number 0, the flag false, the slice nil. -/
def DataFrame.zero : DataFrame where
  Seq := 0
  Cliffs := fun _ => 0
  Encoders := fun _ => ⟨0, 0, 0⟩
  BattVoltage := 0
  ChargerVoltage := 0
  BodyTemp := 0
  Touch := 0
  ButtonState := false
  MicData := []
  ProxSigmaMM := 0
  ProxRawRangeMM := 0
  ProxSignalRateMCPS := 0
  ProxAmbient := 0
  ProxSPADCount := 0
  ProxSampleCount := 0
  ProxCalibResult := 0

/-- The body of `readFrame` after the call of `C.iterate()`: the field by field
conversion of the raw frame `df`, lines 266 to 305. -/
def decodeFrame (df : SpineDataFrame) : DataFrame where
  Seq := toU32 df.seq
  Encoders := fun i =>
    { Pos := wrapI32 (df.motors i).pos
      DLT := wrapI32 (df.motors i).dlt
      TM := toU32 (df.motors i).tm }
  Cliffs := ![toU32 (df.cliff_sensor 0), toU32 (df.cliff_sensor 1),
              toU32 (df.cliff_sensor 2), toU32 (df.cliff_sensor 3)]
  BattVoltage := wrapI16 df.battery_voltage
  ChargerVoltage := wrapI16 df.charger_voltage
  BodyTemp := wrapI16 df.body_temp
  Touch := toU16 df.touch_sensor
  ProxSigmaMM := toU8 df.prox_sigma_mm
  ProxRawRangeMM := toU16 df.prox_raw_range_mm
  ProxSignalRateMCPS := toU16 df.prox_signal_rate_mcps
  ProxAmbient := toU16 df.prox_ambient
  ProxSPADCount := toU16 df.prox_SPAD_count
  ProxSampleCount := toU16 df.prox_sample_count
  ProxCalibResult := toU32 df.prox_calibration_result
  ButtonState := if df.buttton_state > 0 then true else false
  MicData := (List.finRange 320).foldl
    (fun acc i => acc ++ [wrapI16 (Int.ofNat (df.mic_data i))]) []

/-! ## Channels -/

/-- A Go buffered channel: its capacity and the values queued in it, oldest first. -/
structure Chan (α : Type) where
  cap : Nat
  buf : List α

/-- The Go call `make(chan T, n)`. -/
def Chan.make (α : Type) (n : Nat) : Chan α := ⟨n, []⟩

/-- The Go statement `select { case c <- v: default: }`: the value is queued when
the buffer has room and dropped otherwise.  A receiver already waiting on the
empty channel is the schedule in which its receive comes right after. -/
def Chan.trySend {α : Type} (c : Chan α) (v : α) : Chan α :=
  if c.buf.length < c.cap then { c with buf := c.buf ++ [v] } else c

/-- A receive `<-c` by a consumer: the oldest queued value, when there is one. -/
def Chan.recv {α : Type} (c : Chan α) : Option α × Chan α :=
  match c.buf with
  | [] => (none, c)
  | v :: rest => (some v, { c with buf := rest })

/-- The non-blocking send on a channel variable, which may still be nil: a nil
channel is never ready, so the default branch is taken. -/
def offer {α : Type} (g : Option (Chan α)) (v : α) : Option (Chan α) :=
  g.map fun c => c.trySend v

/-- A receive on a channel variable; on a nil channel nothing is ever received. -/
def take {α : Type} (g : Option (Chan α)) : Option α × Option (Chan α) :=
  match g with
  | none => (none, none)
  | some c => ((c.recv).1, some (c.recv).2)

/-! ## Session state -/

/-- The C library behind the cgo calls.  `handles k` is what the call number `k`
of `spine_full_init` returns and `frames k` is what the call number `k` of
`iterate` returns; the three counters record the calls made so far. -/
structure SpineLib where
  handles : Nat → Int
  frames : Nat → SpineDataFrame
  inits : Nat
  reads : Nat
  closes : Nat

/-- The package-level variables of `vbody` together with the C library. -/
structure World where
  ReadOnly : Bool
  spineHandle : Int
  spineInited : Bool
  motor1 : Int
  motor2 : Int
  motor3 : Int
  motor4 : Int
  frontLEDStatus : Nat
  middleLEDStatus : Nat
  backLEDStatus : Nat
  frameChannel : Option (Chan DataFrame)
  buttonChannel : Option (Chan Bool)
  lib : SpineLib

/-- The values `errors.New` is called with in the package. -/
inductive SpineError where
  /-- Message: initiate spine first. -/
  | initiateFirst
  /-- Message: spine handle is 0. -/
  | handleIsZero
  /-- Message: spine became uninitialized during comms loop start. -/
  | becameUninitialized
  /-- Message: body has not returned a valid frame after `tries` tries. -/
  | noValidFrame (tries : Nat)
deriving DecidableEq, Repr

/-- The Go function `IsInited`. -/
def IsInited (w : World) : Bool := w.spineInited

/-- The Go function `readFrame`. -/
def readFrame (w : World) : DataFrame × World :=
  if !w.spineInited then (DataFrame.zero, w)
  else
    let df := w.lib.frames w.lib.reads
    (decodeFrame df, { w with lib := { w.lib with reads := w.lib.reads + 1 } })

/-- The warm-up loop of `startCommsLoop`, lines 127 to 140, entered with loop
variable `i`.  The first argument bounds the number of iterations still to
run; the loop leaves by `return` or `break` at `i = 10` at the latest. -/
def probeLoop : Nat → Nat → World → Option SpineError × World
  | 0, _, w => (none, w)
  | fuel + 1, i, w =>
    if i ≤ 10 then
      if !w.spineInited then (some SpineError.becameUninitialized, w)
      else
        let r := readFrame w
        if i == 10 && r.1.Touch == 0 then (some (SpineError.noValidFrame i), r.2)
        else if r.1.Touch == 0 then probeLoop fuel (i + 1) r.2
        else (none, r.2)
    else (none, w)

/-- The part of `startCommsLoop` run by the caller: the guard, the warm-up loop
and the creation of the two exported channels.  The goroutines it starts are
`Comms.spawn` below. -/
def startCommsLoop (w : World) : Option SpineError × World :=
  if !w.spineInited then (some SpineError.initiateFirst, w)
  else
    match probeLoop 11 0 w with
    | (some e, w1) => (some e, w1)
    | (none, w1) =>
      (none, { w1 with frameChannel := some (Chan.make DataFrame 1)
                       buttonChannel := some (Chan.make Bool 1) })

/-- The Go function `InitSpine`. -/
def InitSpine (w : World) : Option SpineError × World :=
  if w.spineInited then (none, w)
  else
    let handle := w.lib.handles w.lib.inits
    let w1 := { w with lib := { w.lib with inits := w.lib.inits + 1 } }
    if handle > 0 then
      match startCommsLoop { w1 with spineInited := true } with
      | (some e, w2) => (some e, { w2 with spineInited := false })
      | (none, w2) => (none, w2)
    else (some SpineError.handleIsZero, { w1 with spineInited := false })

/-- The Go function `StopSpine`. -/
def StopSpine (w : World) : World :=
  if w.spineInited then
    { w with spineInited := false, lib := { w.lib with closes := w.lib.closes + 1 } }
  else w

/-- The Go function `SetLEDs`. -/
def SetLEDs (front middle back : Nat) (w : World) : Option SpineError × World :=
  if !w.spineInited then (some SpineError.initiateFirst, w)
  else (none, { w with frontLEDStatus := front, middleLEDStatus := middle,
                       backLEDStatus := back })

/-- The Go function `SetMotors`. -/
def SetMotors (m1 m2 m3 m4 : Int) (w : World) : Option SpineError × World :=
  let m2 := wrapI16 (-m2)
  if !w.spineInited then (some SpineError.initiateFirst, w)
  else
    (none, { w with motor1 := wrapI16 (m1 * 100), motor2 := wrapI16 (m2 * 100),
                    motor3 := wrapI16 (m3 * 100), motor4 := wrapI16 (m4 * 100) })

/-! ## The goroutines of `startCommsLoop` -/

/-- The two channels the acquisition goroutine sends to. -/
inductive Slot where
  | frameChannel
  | frameChannelForButton
deriving DecidableEq, Repr

/-- The world together with the locals of `startCommsLoop` that its goroutines
share (`frameChannelForButton`, `returnFrame`, `bStatus`), one flag per
goroutine telling that it has returned, and five traces.  The traces are
written and never read: `forwarded` lists the sends the acquisition goroutine
attempted, `delivered` the frames the button goroutine took from its channel,
`events` the sends the button goroutine attempted, `framesOut` and
`buttonsOut` what a consumer received from `GetFrameChan()` and
`GetButtonChan()`. -/
structure Comms where
  w : World
  frameChannelForButton : Chan DataFrame
  returnFrame : Bool
  acqReturned : Bool
  bStatus : Bool
  buttonReturned : Bool
  forwarded : List (Slot × DataFrame)
  delivered : List DataFrame
  events : List Bool
  framesOut : List DataFrame
  buttonsOut : List Bool

/-- The locals as `startCommsLoop` leaves them when it starts the goroutines
(lines 143, 161 and 193). -/
def Comms.spawn (w : World) : Comms where
  w := w
  frameChannelForButton := Chan.make DataFrame 1
  returnFrame := false
  acqReturned := false
  bStatus := false
  buttonReturned := false
  forwarded := []
  delivered := []
  events := []
  framesOut := []
  buttonsOut := []

/-- One iteration of the acquisition goroutine, lines 165 to 187. -/
def acquire (s : Comms) : Comms :=
  if s.acqReturned then s
  else if !s.w.spineInited then { s with acqReturned := true }
  else
    let r := readFrame s.w
    if !s.returnFrame then { s with w := r.2, returnFrame := true }
    else
      { s with
        w := { r.2 with frameChannel := offer r.2.frameChannel r.1 }
        returnFrame := false
        frameChannelForButton := s.frameChannelForButton.trySend r.1
        forwarded := s.forwarded ++
          [(Slot.frameChannel, r.1), (Slot.frameChannelForButton, r.1)] }

/-- The body of the button goroutine for the frame `fr`, lines 195 to 210. -/
def detectBody (fr : DataFrame) (s : Comms) : Comms :=
  if !s.w.spineInited then { s with buttonReturned := true }
  else if !s.bStatus && fr.ButtonState then
    { s with
      bStatus := true
      w := { s.w with buttonChannel := offer s.w.buttonChannel true }
      events := s.events ++ [true] }
  else if s.bStatus && !fr.ButtonState then
    { s with
      bStatus := false
      w := { s.w with buttonChannel := offer s.w.buttonChannel false }
      events := s.events ++ [false] }
  else s

/-- The `range` loop of the button goroutine is handed the frame `fr`. -/
def deliver (fr : DataFrame) (s : Comms) : Comms :=
  if s.buttonReturned then s
  else detectBody fr { s with delivered := s.delivered ++ [fr] }

/-- One turn of the button goroutine: it takes the frame waiting in
`frameChannelForButton`, if there is one, and runs the loop body on it. -/
def detect (s : Comms) : Comms :=
  if s.buttonReturned then s
  else
    match (s.frameChannelForButton.recv).1 with
    | none => s
    | some fr => deliver fr { s with frameChannelForButton := (s.frameChannelForButton.recv).2 }

/-- A consumer receives from `GetFrameChan()`. -/
def recvFrame (s : Comms) : Comms :=
  { s with
    w := { s.w with frameChannel := (take s.w.frameChannel).2 }
    framesOut := s.framesOut ++ ((take s.w.frameChannel).1).toList }

/-- A consumer receives from `GetButtonChan()`. -/
def recvButton (s : Comms) : Comms :=
  { s with
    w := { s.w with buttonChannel := (take s.w.buttonChannel).2 }
    buttonsOut := s.buttonsOut ++ ((take s.w.buttonChannel).1).toList }

/-- The moves of the running system. -/
inductive Action where
  | acquire
  | detect
  | recvFrame
  | recvButton
deriving DecidableEq, Repr

/-- The effect of one move. -/
def step (s : Comms) : Action → Comms
  | Action.acquire => acquire s
  | Action.detect => detect s
  | Action.recvFrame => recvFrame s
  | Action.recvButton => recvButton s

/-- The effect of a schedule, a finite sequence of moves. -/
def run (acts : List Action) (s : Comms) : Comms := acts.foldl step s

/-- What happens around the button goroutine seen alone: a frame reaches its
loop, or a consumer receives from the button channel. -/
inductive DetectorEvent where
  | deliver (fr : DataFrame)
  | recvButton

/-- The effect of one detector event. -/
def stepDetector (s : Comms) : DetectorEvent → Comms
  | DetectorEvent.deliver fr => deliver fr s
  | DetectorEvent.recvButton => recvButton s

/-- The effect of a sequence of detector events. -/
def runDetector (evs : List DetectorEvent) (s : Comms) : Comms := evs.foldl stepDetector s

/-- The button levels of the frames delivered in a sequence of detector events. -/
def levelsOf : List DetectorEvent → List Bool
  | [] => []
  | DetectorEvent.deliver fr :: evs => fr.ButtonState :: levelsOf evs
  | DetectorEvent.recvButton :: evs => levelsOf evs

/-- A frame that is zero except for its button level. -/
def frameWithButton (b : Bool) : DataFrame := { DataFrame.zero with ButtonState := b }

/-! ## Notions the properties are stated with -/

/-- The levels of `l` at the positions where the level differs from the level
before it, `prev` being the level before the first. -/
def changes : Bool → List Bool → List Bool
  | _, [] => []
  | prev, b :: l => if b != prev then b :: changes b l else changes b l

/-- The list `l` reads `b, !b, b, !b, ...`. -/
def AlternatesFrom : Bool → List Bool → Prop
  | _, [] => True
  | b, x :: l => x = b ∧ AlternatesFrom (!b) l

/-- The frames of a trace of sends that went to the slot `t`. -/
def sentTo (t : Slot) (tr : List (Slot × DataFrame)) : List DataFrame :=
  (tr.filter fun p => p.1 = t).map Prod.snd

/-- The frame the call number `k` of `readFrame` returns, counting from 0 at the
world `w`, while the session stays initialized. -/
def frameAt (w : World) (k : Nat) : DataFrame := decodeFrame (w.lib.frames (w.lib.reads + k))

/-- A raw frame that is zero except for the three given fields. -/
def rawFrame (seq touch button : Nat) : SpineDataFrame where
  seq := seq
  motors := fun _ => ⟨0, 0, 0⟩
  cliff_sensor := fun _ => 0
  battery_voltage := 0
  charger_voltage := 0
  body_temp := 0
  prox_sigma_mm := 0
  prox_raw_range_mm := 0
  prox_signal_rate_mcps := 0
  prox_ambient := 0
  prox_SPAD_count := 0
  prox_sample_count := 0
  prox_calibration_result := 0
  touch_sensor := touch
  buttton_state := button
  mic_data := fun _ => 0

/-- A world before the first `InitSpine`: every package variable has its Go zero
value and the library has not been called. -/
def World.boot (handles : Nat → Int) (frames : Nat → SpineDataFrame) : World where
  ReadOnly := false
  spineHandle := 0
  spineInited := false
  motor1 := 0
  motor2 := 0
  motor3 := 0
  motor4 := 0
  frontLEDStatus := 0
  middleLEDStatus := 0
  backLEDStatus := 0
  frameChannel := none
  buttonChannel := none
  lib := ⟨handles, frames, 0, 0, 0⟩

/-! ## Auxiliary definitions for the statements and sample inputs -/

/-- The world after `n` further `iterate` calls. -/
def World.afterReads (w : World) (n : Nat) : World :=
  { w with lib := { w.lib with reads := w.lib.reads + n } }

/-- The world in which `InitSpine` calls `startCommsLoop`: one more
`spine_full_init` call made and `spineInited` set. -/
def World.afterInit (w : World) : World :=
  { w with lib := { w.lib with inits := w.lib.inits + 1 }, spineInited := true }

/-- The raw touch value of the frame the read number `k` returns, counting from 0
at the world `w`. -/
def rawTouch (w : World) (k : Nat) : Nat := (w.lib.frames (w.lib.reads + k)).touch_sensor

/-- The frames forwarded after `n` forwards from the world `w`: the frames at the
0-based read offsets 1, 3, 5, ..., each sent to both slots. -/
def forwardedAfter (w : World) (n : Nat) : List (Slot × DataFrame) :=
  ((List.range n).map fun j => frameAt w (2 * j + 1)).flatMap fun f =>
    [(Slot.frameChannel, f), (Slot.frameChannelForButton, f)]

/-- What holds of the three slots in every reachable state: capacity 1, at most
one queued value, and the values received so far followed by the queued value
form a sublist of the values offered so far. -/
structure SlotInv (s : Comms) : Prop where
  frame : ∃ c, s.w.frameChannel = some c ∧ c.cap = 1 ∧ c.buf.length ≤ 1 ∧
    (s.framesOut ++ c.buf).Sublist (sentTo Slot.frameChannel s.forwarded)
  forButton : s.frameChannelForButton.cap = 1 ∧ s.frameChannelForButton.buf.length ≤ 1 ∧
    (s.delivered ++ s.frameChannelForButton.buf).Sublist
      (sentTo Slot.frameChannelForButton s.forwarded)
  button : ∃ c, s.w.buttonChannel = some c ∧ c.cap = 1 ∧ c.buf.length ≤ 1 ∧
    (s.buttonsOut ++ c.buf).Sublist s.events

/-- A raw frame with a different value in every field `readFrame` reads. -/
def rawSample : SpineDataFrame where
  seq := 4000000000
  motors := fun i => ⟨-5 - i.val, 1000 + i.val, 4294967295 - i.val⟩
  cliff_sensor := fun i => 65535 - i.val
  battery_voltage := -32768
  charger_voltage := 32767
  body_temp := -1
  prox_sigma_mm := 255
  prox_raw_range_mm := 65535
  prox_signal_rate_mcps := 65534
  prox_ambient := 65533
  prox_SPAD_count := 65532
  prox_sample_count := 65531
  prox_calibration_result := 4294967295
  touch_sensor := 40000
  buttton_state := 513
  mic_data := fun i => 65535 - i.val

/-- A transport for a full-system run: handle 1, touch value 1 in every frame,
and the button pressed in the frames number 2, 6, 10, ... -/
def pressReleaseFrames (k : Nat) : SpineDataFrame :=
  rawFrame k 1 (if k % 4 = 2 then 1 else 0)

/-- A sample session, running or stopped: handle 1, every raw frame with touch
value 1, some motor and LED variables away from zero. -/
def World.sample (inited : Bool) : World :=
  { World.boot (fun _ => 1) (fun k => rawFrame k 1 0) with
    spineInited := inited, motor1 := 7, motor2 := -7, frontLEDStatus := 255 }

/-- The detector schedule in which a consumer receives from the button channel
after every delivered frame; the frames carry the levels `l`. -/
def eagerly : List Bool → List DetectorEvent
  | [] => []
  | b :: l =>
    DetectorEvent.deliver (frameWithButton b) :: DetectorEvent.recvButton :: eagerly l

/-- The schedule of `n` rounds in which every iteration of the acquisition
goroutine is followed by a consumer receive from the frame channel and by a
turn of the button goroutine, so that both slots are empty at each forward. -/
def eagerRounds : Nat → List Action
  | 0 => []
  | n + 1 => eagerRounds n ++ [Action.acquire, Action.recvFrame, Action.detect]

/-! ## Machine integer lemmas -/

theorem wrapI16_range (x : Int) : IsI16 (wrapI16 x) := by
  unfold IsI16 wrapI16; omega

theorem wrapI16_congr (x : Int) : (65536 : Int) ∣ (wrapI16 x - x) := by
  unfold wrapI16; omega

theorem wrapI16_of_range {x : Int} (h : IsI16 x) : wrapI16 x = x := by
  unfold IsI16 at h; unfold wrapI16; omega

theorem wrapI32_of_range {x : Int} (h : IsI32 x) : wrapI32 x = x := by
  unfold IsI32 at h; unfold wrapI32; omega

theorem toU8_of_lt {n : Nat} (h : n < 256) : toU8 n = n := Nat.mod_eq_of_lt h

theorem toU16_of_lt {n : Nat} (h : n < 65536) : toU16 n = n := Nat.mod_eq_of_lt h

theorem toU32_of_lt {n : Nat} (h : n < 4294967296) : toU32 n = n := Nat.mod_eq_of_lt h

/-! ## The command setters -/

/-- C1. With the session initialized and four `int16` arguments, `SetMotors`
returns nil and stores, in each motor variable, the one `int16` value congruent
modulo 2^16 to `100*m1`, `-100*m2`, `100*m3`, `100*m4`; when every argument
has absolute value at most 327 these are the exact products; and the arguments
`(1, 1, 0, 0)` store `(100, -100, 0, 0)`. -/
theorem SetMotors_stores_scaled_command (w : World) (m1 m2 m3 m4 : Int)
    (hw : w.spineInited = true)
    (h1 : IsI16 m1) (h2 : IsI16 m2) (h3 : IsI16 m3) (h4 : IsI16 m4) :
    (SetMotors m1 m2 m3 m4 w).1 = none ∧
    ((SetMotors m1 m2 m3 m4 w).2.motor1 = wrapI16 (100 * m1) ∧
     (SetMotors m1 m2 m3 m4 w).2.motor2 = wrapI16 (-100 * m2) ∧
     (SetMotors m1 m2 m3 m4 w).2.motor3 = wrapI16 (100 * m3) ∧
     (SetMotors m1 m2 m3 m4 w).2.motor4 = wrapI16 (100 * m4)) ∧
    (IsI16 (SetMotors m1 m2 m3 m4 w).2.motor1 ∧
     (65536 : Int) ∣ ((SetMotors m1 m2 m3 m4 w).2.motor1 - 100 * m1) ∧
     IsI16 (SetMotors m1 m2 m3 m4 w).2.motor2 ∧
     (65536 : Int) ∣ ((SetMotors m1 m2 m3 m4 w).2.motor2 - -100 * m2) ∧
     IsI16 (SetMotors m1 m2 m3 m4 w).2.motor3 ∧
     (65536 : Int) ∣ ((SetMotors m1 m2 m3 m4 w).2.motor3 - 100 * m3) ∧
     IsI16 (SetMotors m1 m2 m3 m4 w).2.motor4 ∧
     (65536 : Int) ∣ ((SetMotors m1 m2 m3 m4 w).2.motor4 - 100 * m4)) ∧
    (|m1| ≤ 327 → |m2| ≤ 327 → |m3| ≤ 327 → |m4| ≤ 327 →
      (SetMotors m1 m2 m3 m4 w).2.motor1 = 100 * m1 ∧
      (SetMotors m1 m2 m3 m4 w).2.motor2 = -100 * m2 ∧
      (SetMotors m1 m2 m3 m4 w).2.motor3 = 100 * m3 ∧
      (SetMotors m1 m2 m3 m4 w).2.motor4 = 100 * m4) ∧
    ((SetMotors 1 1 0 0 w).2.motor1 = 100 ∧ (SetMotors 1 1 0 0 w).2.motor2 = -100 ∧
     (SetMotors 1 1 0 0 w).2.motor3 = 0 ∧ (SetMotors 1 1 0 0 w).2.motor4 = 0) := by
  unfold IsI16 at h1 h2 h3 h4
  simp only [SetMotors, hw, Bool.not_true, Bool.false_eq_true, if_false]
  refine ⟨trivial, ⟨?_, ?_, ?_, ?_⟩, ⟨?_, ?_, ?_, ?_, ?_, ?_, ?_, ?_⟩, ?_, ?_⟩
  all_goals try (unfold IsI16)
  all_goals try (unfold wrapI16; omega)
  · intro a1 a2 a3 a4
    rw [abs_le] at a1 a2 a3 a4
    unfold wrapI16
    omega

/-- Witness of C1 at the arguments `(300, -32768, -5, 0)`: the left wheel value
`-32768` has no `int16` negation and the product wraps. -/
theorem SetMotors_stores_scaled_command_witness :
    (SetMotors 300 (-32768) (-5) 0
        { World.boot (fun _ => 1) (fun _ => rawFrame 0 1 0) with spineInited := true }).2.motor2
      = wrapI16 (-100 * -32768) :=
  (SetMotors_stores_scaled_command
    { World.boot (fun _ => 1) (fun _ => rawFrame 0 1 0) with spineInited := true }
    300 (-32768) (-5) 0 rfl (by decide) (by decide) (by decide) (by decide)).2.1.2.1

/-- C2. `SetMotors` and `SetLEDs` return an error exactly when `IsInited()` is
false; a call that returns an error leaves the whole state as it was; a
successful `SetLEDs` stores its three arguments verbatim and keeps the motor
variables, a successful `SetMotors` keeps the LED variables; neither call
changes `spineInited`. -/
theorem setters_gated_by_IsInited (w : World) (m1 m2 m3 m4 : Int) (front middle back : Nat) :
    (((SetMotors m1 m2 m3 m4 w).1.isSome = true ↔ IsInited w = false) ∧
     ((SetLEDs front middle back w).1.isSome = true ↔ IsInited w = false)) ∧
    (((SetMotors m1 m2 m3 m4 w).1.isSome = true → (SetMotors m1 m2 m3 m4 w).2 = w) ∧
     ((SetLEDs front middle back w).1.isSome = true → (SetLEDs front middle back w).2 = w)) ∧
    ((SetLEDs front middle back w).1 = none →
      ((SetLEDs front middle back w).2.frontLEDStatus = front ∧
       (SetLEDs front middle back w).2.middleLEDStatus = middle ∧
       (SetLEDs front middle back w).2.backLEDStatus = back) ∧
      ((SetLEDs front middle back w).2.motor1 = w.motor1 ∧
       (SetLEDs front middle back w).2.motor2 = w.motor2 ∧
       (SetLEDs front middle back w).2.motor3 = w.motor3 ∧
       (SetLEDs front middle back w).2.motor4 = w.motor4)) ∧
    ((SetMotors m1 m2 m3 m4 w).1 = none →
      (SetMotors m1 m2 m3 m4 w).2.frontLEDStatus = w.frontLEDStatus ∧
      (SetMotors m1 m2 m3 m4 w).2.middleLEDStatus = w.middleLEDStatus ∧
      (SetMotors m1 m2 m3 m4 w).2.backLEDStatus = w.backLEDStatus) ∧
    ((SetMotors m1 m2 m3 m4 w).2.spineInited = w.spineInited ∧
     (SetLEDs front middle back w).2.spineInited = w.spineInited) := by
  cases hw : w.spineInited <;> simp [SetMotors, SetLEDs, IsInited, hw]

/-- Witness of C2: on a stopped session `SetLEDs` fails and changes nothing, on
a running one it stores the three colours. -/
theorem setters_gated_by_IsInited_witness :
    (SetLEDs 1 2 3 (World.sample false)).2 = World.sample false ∧
    (SetLEDs 1 2 3 (World.sample true)).2.backLEDStatus = 3 :=
  ⟨(setters_gated_by_IsInited (World.sample false) 0 0 0 0 1 2 3).2.1.2 rfl,
   ((setters_gated_by_IsInited (World.sample true) 0 0 0 0 1 2 3).2.2.1 rfl).1.2.2⟩

/-! ## Session lifecycle -/

/-- C7. On a running session `InitSpine` returns nil and changes nothing: no
package variable, no library call counter.  On a stopped session `StopSpine`
changes nothing, so it does not close the transport.  `StopSpine` on a
running session clears `spineInited`, and a second `StopSpine` changes
nothing more. -/
theorem init_and_stop_idempotent (w : World) :
    (w.spineInited = true →
      InitSpine w = (none, w) ∧
      (InitSpine w).2.lib.inits = w.lib.inits ∧ (InitSpine w).2.lib.reads = w.lib.reads) ∧
    (w.spineInited = false →
      StopSpine w = w ∧ (StopSpine w).lib.closes = w.lib.closes) ∧
    (w.spineInited = true →
      (StopSpine w).spineInited = false ∧
      (StopSpine w).lib.closes = w.lib.closes + 1 ∧
      StopSpine (StopSpine w) = StopSpine w) := by
  refine ⟨fun h => ?_, fun h => ?_, fun h => ?_⟩
  · simp [InitSpine, h]
  · simp [StopSpine, h]
  · simp [StopSpine, h]

/-- Witness of C7 on a running and on a stopped sample session. -/
theorem init_and_stop_idempotent_witness :
    InitSpine (World.sample true) = (none, World.sample true) ∧
    StopSpine (World.sample false) = World.sample false ∧
    StopSpine (StopSpine (World.sample true)) = StopSpine (World.sample true) :=
  ⟨((init_and_stop_idempotent (World.sample true)).1 rfl).1,
   ((init_and_stop_idempotent (World.sample false)).2.1 rfl).1,
   ((init_and_stop_idempotent (World.sample true)).2.2 rfl).2.2⟩

/-! ## The frame decoder -/

theorem foldl_append_singleton {α β : Type} (g : α → β) (l : List α) (init : List β) :
    l.foldl (fun acc i => acc ++ [g i]) init = init ++ l.map g := by
  induction l generalizing init with
  | nil => simp
  | cons a l ih => simp [ih]

theorem getElem_map_finRange_some {β : Type} (n : Nat) (g : Fin n → β) (i : Fin n) :
    ((List.finRange n).map g)[i.val]? = some (g i) := by
  have hlt : i.val < (List.finRange n).length := by simp
  rw [List.getElem?_map, List.getElem?_eq_getElem hlt, List.getElem_finRange]
  simp

theorem decodeFrame_MicData (df : SpineDataFrame) :
    (decodeFrame df).MicData
      = (List.finRange 320).map fun i => wrapI16 (Int.ofNat (df.mic_data i)) := by
  simp only [decodeFrame, foldl_append_singleton, List.nil_append]

/-- C8. On a running session `readFrame` makes one `iterate` call and returns a
frame whose scalar fields equal the raw fields of the same name, whose
`Cliffs` and `Encoders` entries equal the raw entries at the same index, whose
`ButtonState` is true exactly when the raw button code is non-zero, and whose
`MicData` has 320 entries, entry `i` being the raw sample `i` read as a
two-complement 16-bit number.  On a stopped session it returns the zero frame
and makes no library call. -/
theorem readFrame_field_mapping (w : World) (hwf : (w.lib.frames w.lib.reads).WF) :
    (w.spineInited = true →
      ((readFrame w).1.Seq = (w.lib.frames w.lib.reads).seq ∧
       (readFrame w).1.BattVoltage = (w.lib.frames w.lib.reads).battery_voltage ∧
       (readFrame w).1.ChargerVoltage = (w.lib.frames w.lib.reads).charger_voltage ∧
       (readFrame w).1.BodyTemp = (w.lib.frames w.lib.reads).body_temp ∧
       (readFrame w).1.Touch = (w.lib.frames w.lib.reads).touch_sensor) ∧
      ((readFrame w).1.ProxSigmaMM = (w.lib.frames w.lib.reads).prox_sigma_mm ∧
       (readFrame w).1.ProxRawRangeMM = (w.lib.frames w.lib.reads).prox_raw_range_mm ∧
       (readFrame w).1.ProxSignalRateMCPS = (w.lib.frames w.lib.reads).prox_signal_rate_mcps ∧
       (readFrame w).1.ProxAmbient = (w.lib.frames w.lib.reads).prox_ambient ∧
       (readFrame w).1.ProxSPADCount = (w.lib.frames w.lib.reads).prox_SPAD_count ∧
       (readFrame w).1.ProxSampleCount = (w.lib.frames w.lib.reads).prox_sample_count ∧
       (readFrame w).1.ProxCalibResult
         = (w.lib.frames w.lib.reads).prox_calibration_result) ∧
      (∀ i : Fin 4, (readFrame w).1.Cliffs i = (w.lib.frames w.lib.reads).cliff_sensor i) ∧
      (∀ i : Fin 4, (readFrame w).1.Encoders i =
        { Pos := ((w.lib.frames w.lib.reads).motors i).pos
          DLT := ((w.lib.frames w.lib.reads).motors i).dlt
          TM := ((w.lib.frames w.lib.reads).motors i).tm }) ∧
      ((readFrame w).1.ButtonState = true ↔ (w.lib.frames w.lib.reads).buttton_state ≠ 0) ∧
      (readFrame w).1.MicData.length = 320 ∧
      (∀ i : Fin 320, (readFrame w).1.MicData[i.val]? =
        some (if (w.lib.frames w.lib.reads).mic_data i < 32768
              then ((w.lib.frames w.lib.reads).mic_data i : Int)
              else ((w.lib.frames w.lib.reads).mic_data i : Int) - 65536)) ∧
      (readFrame w).2.lib.reads = w.lib.reads + 1) ∧
    (w.spineInited = false →
      (readFrame w).1 = DataFrame.zero ∧ (readFrame w).2 = w) := by
  constructor
  · intro hw
    have hfr : (readFrame w).1 = decodeFrame (w.lib.frames w.lib.reads) := by
      simp [readFrame, hw]
    have hrd : (readFrame w).2.lib.reads = w.lib.reads + 1 := by
      simp [readFrame, hw]
    rw [hfr]
    refine ⟨⟨?_, ?_, ?_, ?_, ?_⟩, ⟨?_, ?_, ?_, ?_, ?_, ?_, ?_⟩, ?_, ?_, ?_, ?_, ?_, hrd⟩
    · exact toU32_of_lt hwf.seq
    · exact wrapI16_of_range hwf.battery_voltage
    · exact wrapI16_of_range hwf.charger_voltage
    · exact wrapI16_of_range hwf.body_temp
    · exact toU16_of_lt hwf.touch_sensor
    · exact toU8_of_lt hwf.prox_sigma_mm
    · exact toU16_of_lt hwf.prox_raw_range_mm
    · exact toU16_of_lt hwf.prox_signal_rate_mcps
    · exact toU16_of_lt hwf.prox_ambient
    · exact toU16_of_lt hwf.prox_SPAD_count
    · exact toU16_of_lt hwf.prox_sample_count
    · exact toU32_of_lt hwf.prox_calibration_result
    · intro i
      have h0 := hwf.cliff_sensor 0
      have h1 := hwf.cliff_sensor 1
      have h2 := hwf.cliff_sensor 2
      have h3 := hwf.cliff_sensor 3
      fin_cases i
      · exact toU32_of_lt (by omega)
      · exact toU32_of_lt (by omega)
      · exact toU32_of_lt (by omega)
      · exact toU32_of_lt (by omega)
    · intro i
      simp only [decodeFrame, wrapI32_of_range (hwf.pos i), wrapI32_of_range (hwf.dlt i),
        toU32_of_lt (hwf.tm i)]
    · simp only [decodeFrame]
      constructor
      · intro h hz
        simp [hz] at h
      · intro h
        have : (w.lib.frames w.lib.reads).buttton_state > 0 := Nat.pos_of_ne_zero h
        simp [this]
    · rw [decodeFrame_MicData]
      simp
    · intro i
      rw [decodeFrame_MicData]
      have hi := hwf.mic_data i
      rw [getElem_map_finRange_some, Option.some.injEq]
      unfold wrapI16
      split <;> simp only [Int.ofNat_eq_coe] <;> omega
  · intro hw
    simp [readFrame, hw]

theorem rawSample_WF : rawSample.WF where
  seq := by decide
  pos := by intro i; simp only [rawSample, IsI32]; omega
  dlt := by intro i; simp only [rawSample, IsI32]; omega
  tm := by intro i; simp only [rawSample]; omega
  cliff_sensor := by intro i; simp only [rawSample]; omega
  battery_voltage := by decide
  charger_voltage := by decide
  body_temp := by decide
  prox_sigma_mm := by decide
  prox_raw_range_mm := by decide
  prox_signal_rate_mcps := by decide
  prox_ambient := by decide
  prox_SPAD_count := by decide
  prox_sample_count := by decide
  prox_calibration_result := by decide
  touch_sensor := by decide
  buttton_state := by decide
  mic_data := by intro i; simp only [rawSample]; omega

theorem rawFrame_WF {seq touch button : Nat} (hs : seq < 4294967296) (ht : touch < 65536)
    (hb : button < 65536) : (rawFrame seq touch button).WF where
  seq := hs
  pos := by intro i; simp [rawFrame, IsI32]
  dlt := by intro i; simp [rawFrame, IsI32]
  tm := by intro i; simp [rawFrame]
  cliff_sensor := by intro i; simp [rawFrame]
  battery_voltage := by simp [rawFrame, IsI16]
  charger_voltage := by simp [rawFrame, IsI16]
  body_temp := by simp [rawFrame, IsI16]
  prox_sigma_mm := by simp [rawFrame]
  prox_raw_range_mm := by simp [rawFrame]
  prox_signal_rate_mcps := by simp [rawFrame]
  prox_ambient := by simp [rawFrame]
  prox_SPAD_count := by simp [rawFrame]
  prox_sample_count := by simp [rawFrame]
  prox_calibration_result := by simp [rawFrame]
  touch_sensor := ht
  buttton_state := hb
  mic_data := by intro i; simp [rawFrame]

/-- Witness of C8 on a running session whose next raw frame is `rawSample`: the
first microphone sample `65535` is read as `-1`, the button code `513` as
pressed, and encoder 1 keeps its three raw values. -/
theorem readFrame_field_mapping_witness :
    (readFrame { World.boot (fun _ => 1) (fun _ => rawSample) with spineInited := true }).1.MicData[0]?
      = some (-1) ∧
    (readFrame { World.boot (fun _ => 1) (fun _ => rawSample) with spineInited := true }).1.ButtonState
      = true ∧
    (readFrame { World.boot (fun _ => 1) (fun _ => rawSample) with spineInited := true }).1.Encoders 1
      = ⟨-6, 1001, 4294967294⟩ :=
  ⟨((readFrame_field_mapping
      { World.boot (fun _ => 1) (fun _ => rawSample) with spineInited := true }
      rawSample_WF).1 rfl).2.2.2.2.2.2.1 0,
   (((readFrame_field_mapping
      { World.boot (fun _ => 1) (fun _ => rawSample) with spineInited := true }
      rawSample_WF).1 rfl).2.2.2.2.1).2 (by decide),
   ((readFrame_field_mapping
      { World.boot (fun _ => 1) (fun _ => rawSample) with spineInited := true }
      rawSample_WF).1 rfl).2.2.2.1 1⟩

/-! ## The warm-up probe and `InitSpine` -/

theorem readFrame_running {w : World} (hw : w.spineInited = true) :
    readFrame w = (frameAt w 0, w.afterReads 1) := by
  simp [readFrame, hw, frameAt, World.afterReads]

theorem afterReads_spineInited (w : World) (n : Nat) :
    (w.afterReads n).spineInited = w.spineInited := rfl

theorem afterReads_afterReads (w : World) (a b : Nat) :
    (w.afterReads a).afterReads b = w.afterReads (a + b) := by
  simp [World.afterReads, Nat.add_assoc]

theorem frameAt_afterReads (w : World) (a k : Nat) :
    frameAt (w.afterReads a) k = frameAt w (a + k) := by
  simp [frameAt, World.afterReads, Nat.add_assoc]

theorem probeLoop_found (k : Nat) : ∀ (fuel i : Nat) (w : World),
    w.spineInited = true → i + k ≤ 10 → k < fuel →
    (∀ j, j < k → (frameAt w j).Touch = 0) → (frameAt w k).Touch ≠ 0 →
    probeLoop fuel i w = (none, w.afterReads (k + 1)) := by
  induction k with
  | zero =>
    intro fuel i w hw hi hf _ hk
    obtain ⟨f, rfl⟩ : ∃ f, fuel = f + 1 := ⟨fuel - 1, by omega⟩
    have hi10 : i ≤ 10 := by omega
    simp [probeLoop, hi10, hw, readFrame_running hw, hk]
  | succ k ih =>
    intro fuel i w hw hi hf hz hk
    obtain ⟨f, rfl⟩ : ∃ f, fuel = f + 1 := ⟨fuel - 1, by omega⟩
    have hi10 : i ≤ 10 := by omega
    have hne : i ≠ 10 := by omega
    have h0 : (frameAt w 0).Touch = 0 := hz 0 (by omega)
    have hrec := ih f (i + 1) (w.afterReads 1) hw (by omega) (by omega)
      (fun j hj => by rw [frameAt_afterReads]; exact hz (1 + j) (by omega))
      (by rw [frameAt_afterReads]; rwa [Nat.add_comm 1 k])
    simp [probeLoop, hi10, hw, readFrame_running hw, h0, hne, hrec, afterReads_afterReads,
      Nat.add_comm 1]

theorem probeLoop_exhausted : ∀ (fuel i : Nat) (w : World),
    w.spineInited = true → i + fuel = 11 → 1 ≤ fuel →
    (∀ j, j < fuel → (frameAt w j).Touch = 0) →
    probeLoop fuel i w = (some (SpineError.noValidFrame 10), w.afterReads fuel) := by
  intro fuel
  induction fuel with
  | zero => intro i w _ _ h; omega
  | succ f ih =>
    intro i w hw hi _ hz
    have hi10 : i ≤ 10 := by omega
    have h0 : (frameAt w 0).Touch = 0 := hz 0 (by omega)
    by_cases hf : f = 0
    · subst hf
      have : i = 10 := by omega
      subst this
      simp [probeLoop, hw, readFrame_running hw, h0]
    · have hne : i ≠ 10 := by omega
      have hrec := ih (i + 1) (w.afterReads 1) hw (by omega) (by omega)
        (fun j hj => by rw [frameAt_afterReads]; exact hz (1 + j) (by omega))
      simp [probeLoop, hi10, hw, readFrame_running hw, h0, hne, hrec, afterReads_afterReads,
        Nat.add_comm 1]

/-- The outcome of the warm-up loop on a running session, by cases on the first
of the next 11 frames with a non-zero touch value. -/
theorem probeLoop_outcome (w : World) (hw : w.spineInited = true) :
    (∀ k, k < 11 → (∀ j, j < k → (frameAt w j).Touch = 0) → (frameAt w k).Touch ≠ 0 →
      probeLoop 11 0 w = (none, w.afterReads (k + 1))) ∧
    ((∀ j, j < 11 → (frameAt w j).Touch = 0) →
      probeLoop 11 0 w = (some (SpineError.noValidFrame 10), w.afterReads 11)) :=
  ⟨fun k hk hz hnz => probeLoop_found k 11 0 w hw (by omega) hk hz hnz,
   fun hz => probeLoop_exhausted 11 0 w hw (by omega) (by omega) hz⟩

theorem frameAt_Touch {w : World} (hwf : ∀ k, (w.lib.frames k).WF) (k : Nat) :
    (frameAt w k).Touch = rawTouch w k :=
  toU16_of_lt (hwf _).touch_sensor

theorem frameAt_afterInit (w : World) (k : Nat) : frameAt w.afterInit k = frameAt w k := rfl

theorem InitSpine_bad_handle {w : World} (hw : w.spineInited = false)
    (hh : w.lib.handles w.lib.inits ≤ 0) :
    InitSpine w = (some SpineError.handleIsZero,
      { w with lib := { w.lib with inits := w.lib.inits + 1 }, spineInited := false }) := by
  have : ¬ (w.lib.handles w.lib.inits > 0) := by omega
  simp [InitSpine, hw, this]

theorem InitSpine_found {w : World} (hw : w.spineInited = false)
    (hh : 0 < w.lib.handles w.lib.inits) {k : Nat} (hk : k < 11)
    (hz : ∀ j, j < k → (frameAt w j).Touch = 0) (hnz : (frameAt w k).Touch ≠ 0) :
    InitSpine w = (none,
      { w.afterInit.afterReads (k + 1) with
        frameChannel := some (Chan.make DataFrame 1)
        buttonChannel := some (Chan.make Bool 1) }) := by
  have hp := (probeLoop_outcome w.afterInit rfl).1 k hk hz hnz
  have hs : startCommsLoop w.afterInit = (none,
      { w.afterInit.afterReads (k + 1) with
        frameChannel := some (Chan.make DataFrame 1)
        buttonChannel := some (Chan.make Bool 1) }) := by
    unfold startCommsLoop
    rw [hp]
    rfl
  have hh2 : w.lib.handles w.lib.inits > 0 := hh
  simp only [InitSpine, hw, Bool.false_eq_true, if_false, hh2, if_true]
  change (match startCommsLoop w.afterInit with
    | (some e, w2) => (some e, { w2 with spineInited := false })
    | (none, w2) => (none, w2)) = _
  rw [hs]

theorem InitSpine_exhausted {w : World} (hw : w.spineInited = false)
    (hh : 0 < w.lib.handles w.lib.inits) (hz : ∀ j, j < 11 → (frameAt w j).Touch = 0) :
    InitSpine w = (some (SpineError.noValidFrame 10),
      { w.afterInit.afterReads 11 with spineInited := false }) := by
  have hp := (probeLoop_outcome w.afterInit rfl).2 hz
  have hs : startCommsLoop w.afterInit
      = (some (SpineError.noValidFrame 10), w.afterInit.afterReads 11) := by
    unfold startCommsLoop
    rw [hp]
    rfl
  have hh2 : w.lib.handles w.lib.inits > 0 := hh
  simp only [InitSpine, hw, Bool.false_eq_true, if_false, hh2, if_true]
  change (match startCommsLoop w.afterInit with
    | (some e, w2) => (some e, { w2 with spineInited := false })
    | (none, w2) => (none, w2)) = _
  rw [hs]

/-- Among the first 11 reads either some read is the first with a non-zero touch
value, or all 11 have touch value zero. -/
theorem first_touch_or_none (T : Nat → Nat) :
    (∃ k, k < 11 ∧ (∀ j, j < k → T j = 0) ∧ T k ≠ 0) ∨ (∀ j, j < 11 → T j = 0) := by
  by_cases h : ∃ k, k < 11 ∧ T k ≠ 0
  · left
    refine ⟨Nat.find h, (Nat.find_spec h).1, fun j hj => ?_, (Nat.find_spec h).2⟩
    by_contra hne
    exact Nat.find_min h hj ⟨lt_trans hj (Nat.find_spec h).1, hne⟩
  · right
    intro j hj
    by_contra hne
    exact h ⟨j, hj, hne⟩

/-- C6. On a session that is not running, `InitSpine` returns nil exactly when
the handle is positive and one of the next 11 frames of the transport has a
non-zero touch value; the session is initialized afterwards exactly when nil
was returned; the probe reads up to and including the first such frame and
never more than 11 frames.  With a positive handle and 11 frames of touch
value zero it returns an error after 11 reads and leaves the session
uninitialized; with a handle that is not positive it returns an error without
reading a frame. -/
theorem InitSpine_outcome (w : World) (hw : w.spineInited = false)
    (hwf : ∀ k, (w.lib.frames k).WF) :
    ((InitSpine w).1 = none ↔
      (0 < w.lib.handles w.lib.inits ∧ ∃ k, k < 11 ∧ rawTouch w k ≠ 0)) ∧
    ((InitSpine w).2.spineInited = true ↔ (InitSpine w).1 = none) ∧
    (InitSpine w).2.lib.reads ≤ w.lib.reads + 11 ∧
    (0 < w.lib.handles w.lib.inits →
      ∀ k, k < 11 → (∀ j, j < k → rawTouch w j = 0) → rawTouch w k ≠ 0 →
        (InitSpine w).1 = none ∧ (InitSpine w).2.lib.reads = w.lib.reads + (k + 1)) ∧
    (0 < w.lib.handles w.lib.inits → (∀ j, j < 11 → rawTouch w j = 0) →
      (InitSpine w).1 = some (SpineError.noValidFrame 10) ∧
      (InitSpine w).2.spineInited = false ∧
      (InitSpine w).2.lib.reads = w.lib.reads + 11) ∧
    (w.lib.handles w.lib.inits ≤ 0 →
      (InitSpine w).1 = some SpineError.handleIsZero ∧
      (InitSpine w).2.spineInited = false ∧
      (InitSpine w).2.lib.reads = w.lib.reads) := by
  have hT : ∀ k, (frameAt w k).Touch = rawTouch w k := frameAt_Touch hwf
  have hfound : 0 < w.lib.handles w.lib.inits →
      ∀ k, k < 11 → (∀ j, j < k → rawTouch w j = 0) → rawTouch w k ≠ 0 →
        InitSpine w = (none,
          { w.afterInit.afterReads (k + 1) with
            frameChannel := some (Chan.make DataFrame 1)
            buttonChannel := some (Chan.make Bool 1) }) :=
    fun hh k hk hz hnz =>
      InitSpine_found hw hh hk (fun j hj => (hT j).trans (hz j hj)) (by rw [hT]; exact hnz)
  have hexh : 0 < w.lib.handles w.lib.inits → (∀ j, j < 11 → rawTouch w j = 0) →
      InitSpine w = (some (SpineError.noValidFrame 10),
        { w.afterInit.afterReads 11 with spineInited := false }) :=
    fun hh hz => InitSpine_exhausted hw hh (fun j hj => (hT j).trans (hz j hj))
  have hbad := @InitSpine_bad_handle w hw
  refine ⟨?_, ?_, ?_, ?_, ?_, ?_⟩
  · constructor
    · intro hnone
      by_cases hh : 0 < w.lib.handles w.lib.inits
      · refine ⟨hh, ?_⟩
        rcases first_touch_or_none (rawTouch w) with ⟨k, hk, _, hnz⟩ | hz
        · exact ⟨k, hk, hnz⟩
        · rw [hexh hh hz] at hnone
          simp at hnone
      · rw [hbad (by omega)] at hnone
        simp at hnone
    · rintro ⟨hh, k, hk, hnz⟩
      rcases first_touch_or_none (rawTouch w) with ⟨k0, hk0, hz0, hnz0⟩ | hz
      · rw [hfound hh k0 hk0 hz0 hnz0]
      · exact absurd (hz k hk) hnz
  · by_cases hh : 0 < w.lib.handles w.lib.inits
    · rcases first_touch_or_none (rawTouch w) with ⟨k0, hk0, hz0, hnz0⟩ | hz
      · rw [hfound hh k0 hk0 hz0 hnz0]
        simp [World.afterReads, World.afterInit]
      · rw [hexh hh hz]
        simp
    · rw [hbad (by omega)]
      simp
  · by_cases hh : 0 < w.lib.handles w.lib.inits
    · rcases first_touch_or_none (rawTouch w) with ⟨k0, hk0, hz0, hnz0⟩ | hz
      · rw [hfound hh k0 hk0 hz0 hnz0]
        simp only [World.afterReads, World.afterInit]
        omega
      · rw [hexh hh hz]
        simp [World.afterReads, World.afterInit]
    · rw [hbad (by omega)]
      simp
  · intro hh k hk hz hnz
    rw [hfound hh k hk hz hnz]
    simp [World.afterReads, World.afterInit]
  · intro hh hz
    rw [hexh hh hz]
    simp [World.afterReads, World.afterInit]
  · intro hh
    rw [hbad hh]
    simp

/-- Witness of C6: handle 1 and a transport whose frames all have touch value 0. -/
theorem InitSpine_outcome_witness :
    (InitSpine (World.boot (fun _ => 1) (fun _ => rawFrame 0 0 0))).1
      = some (SpineError.noValidFrame 10) ∧
    (InitSpine (World.boot (fun _ => 1) (fun _ => rawFrame 0 0 0))).2.spineInited = false ∧
    (InitSpine (World.boot (fun _ => 1) (fun _ => rawFrame 0 0 0))).2.lib.reads = 0 + 11 :=
  (InitSpine_outcome (World.boot (fun _ => 1) (fun _ => rawFrame 0 0 0)) rfl
    (fun _ => rawFrame_WF (by decide) (by decide) (by decide))).2.2.2.2.1
    (by decide) (fun _ _ => rfl)

/-! ## The button edge detector -/

theorem deliver_running (fr : DataFrame) (s : Comms) (hw : s.w.spineInited = true)
    (hr : s.buttonReturned = false) :
    (deliver fr s).w.spineInited = true ∧ (deliver fr s).buttonReturned = false ∧
    (deliver fr s).bStatus = fr.ButtonState ∧
    (deliver fr s).events = s.events ++ changes s.bStatus [fr.ButtonState] ∧
    (deliver fr s).delivered = s.delivered ++ [fr] := by
  cases hb : s.bStatus <;> cases hf : fr.ButtonState <;>
    simp [deliver, detectBody, hw, hr, hb, hf, changes]

theorem recvButton_keeps (s : Comms) :
    (recvButton s).w.spineInited = s.w.spineInited ∧
    (recvButton s).buttonReturned = s.buttonReturned ∧
    (recvButton s).bStatus = s.bStatus ∧ (recvButton s).events = s.events ∧
    (recvButton s).delivered = s.delivered :=
  ⟨rfl, rfl, rfl, rfl, rfl⟩

theorem changes_cons (prev b : Bool) (l : List Bool) :
    changes prev (b :: l) = changes prev [b] ++ changes b l := by
  cases prev <;> cases b <;> simp [changes]

theorem runDetector_trace (evs : List DetectorEvent) : ∀ (s : Comms),
    s.w.spineInited = true → s.buttonReturned = false →
    (runDetector evs s).events = s.events ++ changes s.bStatus (levelsOf evs) ∧
    (runDetector evs s).delivered.map DataFrame.ButtonState
      = s.delivered.map DataFrame.ButtonState ++ levelsOf evs := by
  induction evs with
  | nil => intro s _ _; simp [runDetector, levelsOf, changes]
  | cons e evs ih =>
    intro s hw hr
    cases e with
    | deliver fr =>
      obtain ⟨h1, h2, h3, h4, h5⟩ := deliver_running fr s hw hr
      have := ih (deliver fr s) h1 h2
      simp only [runDetector, List.foldl_cons, stepDetector] at this ⊢
      have hc := changes_cons s.bStatus fr.ButtonState (levelsOf evs)
      refine ⟨?_, ?_⟩
      · rw [this.1, h3, h4]
        simp only [levelsOf]
        rw [hc, List.append_assoc]
      · rw [this.2, h5]
        simp [levelsOf]
    | recvButton =>
      obtain ⟨h1, h2, h3, h4, h5⟩ := recvButton_keeps s
      have := ih (recvButton s) (h1.trans hw) (h2.trans hr)
      simp only [runDetector, List.foldl_cons, stepDetector] at this ⊢
      rw [this.1, this.2, h3, h4, h5, levelsOf]
      exact ⟨rfl, rfl⟩

theorem changes_alternates (l : List Bool) : ∀ prev, AlternatesFrom (!prev) (changes prev l) := by
  induction l with
  | nil => intro prev; simp [changes, AlternatesFrom]
  | cons b l ih =>
    intro prev
    cases prev <;> cases b <;> simp [changes, AlternatesFrom]
    · exact ih false
    · simpa using ih true
    · simpa using ih false
    · exact ih true

theorem deliver_channel (fr : DataFrame) (s : Comms) (c : Chan Bool)
    (hw : s.w.spineInited = true) (hr : s.buttonReturned = false)
    (hc : s.w.buttonChannel = some c) :
    (deliver fr s).w.buttonChannel
      = some (if fr.ButtonState = s.bStatus then c else c.trySend fr.ButtonState) := by
  cases hb : s.bStatus <;> cases hf : fr.ButtonState <;>
    simp [deliver, detectBody, hw, hr, hb, hf, hc, offer]

theorem levelsOf_eagerly (l : List Bool) : levelsOf (eagerly l) = l := by
  induction l with
  | nil => rfl
  | cons b l ih => simp [eagerly, levelsOf, frameWithButton, DataFrame.zero, ih]

theorem eager_step (b : Bool) (s : Comms) (hw : s.w.spineInited = true)
    (hr : s.buttonReturned = false) (hc : s.w.buttonChannel = some (Chan.make Bool 1)) :
    (recvButton (deliver (frameWithButton b) s)).w.spineInited = true ∧
    (recvButton (deliver (frameWithButton b) s)).buttonReturned = false ∧
    (recvButton (deliver (frameWithButton b) s)).w.buttonChannel = some (Chan.make Bool 1) ∧
    (recvButton (deliver (frameWithButton b) s)).bStatus = b ∧
    (recvButton (deliver (frameWithButton b) s)).buttonsOut
      = s.buttonsOut ++ changes s.bStatus [b] := by
  cases hb : s.bStatus <;> cases b <;>
    simp [deliver, detectBody, recvButton, hw, hr, hb, hc, offer, take, Chan.trySend,
      Chan.recv, Chan.make, frameWithButton, DataFrame.zero, changes]

theorem runDetector_eagerly (l : List Bool) : ∀ (s : Comms),
    s.w.spineInited = true → s.buttonReturned = false →
    s.w.buttonChannel = some (Chan.make Bool 1) →
    (runDetector (eagerly l) s).buttonsOut = s.buttonsOut ++ changes s.bStatus l ∧
    (runDetector (eagerly l) s).w.buttonChannel = some (Chan.make Bool 1) := by
  induction l with
  | nil => intro s _ _ hc; simp [runDetector, eagerly, changes, hc]
  | cons b l ih =>
    intro s hw hr hc
    obtain ⟨h1, h2, h3, h4, h5⟩ := eager_step b s hw hr hc
    have := ih (recvButton (deliver (frameWithButton b) s)) h1 h2 h3
    simp only [runDetector, eagerly, List.foldl_cons, stepDetector] at this ⊢
    rw [this.1, this.2, h4, h5, changes_cons s.bStatus b l, List.append_assoc]
    exact ⟨rfl, rfl⟩

/-- C3. Started in the not-pressed state on a session that stays initialized, the
button goroutine, whatever frames are delivered to it and whenever a consumer
receives from the button channel, offers exactly the levels at the positions
where the level differs from the level before (false before the first): these
are the sends it attempts, each frame whose level differs from the state is a
`trySend` of that level on the button channel and no other frame touches the
channel, and a consumer that receives after every frame receives exactly
these levels.  The events therefore read press, release, press, ..., and the
levels false, false, true, true, false give press, release. -/
theorem button_edge_detection (w : World) (hw : w.spineInited = true)
    (hb : w.buttonChannel = some (Chan.make Bool 1))
    (evs : List DetectorEvent) (levels : List Bool) :
    (runDetector evs (Comms.spawn w)).delivered.map DataFrame.ButtonState = levelsOf evs ∧
    (runDetector evs (Comms.spawn w)).events = changes false (levelsOf evs) ∧
    AlternatesFrom true (runDetector evs (Comms.spawn w)).events ∧
    (runDetector
        ([false, false, true, true, false].map fun b =>
          DetectorEvent.deliver (frameWithButton b))
        (Comms.spawn w)).events = [true, false] ∧
    (∀ (s : Comms) (fr : DataFrame) (c : Chan Bool),
      s.w.spineInited = true → s.buttonReturned = false → s.w.buttonChannel = some c →
      (deliver fr s).bStatus = fr.ButtonState ∧
      (deliver fr s).w.buttonChannel
        = some (if fr.ButtonState = s.bStatus then c else c.trySend fr.ButtonState)) ∧
    (levelsOf (eagerly levels) = levels ∧
     (runDetector (eagerly levels) (Comms.spawn w)).buttonsOut = changes false levels ∧
     AlternatesFrom true (runDetector (eagerly levels) (Comms.spawn w)).buttonsOut) ∧
    (runDetector (eagerly [false, false, true, true, false]) (Comms.spawn w)).buttonsOut
      = [true, false] := by
  have h := runDetector_trace evs (Comms.spawn w) hw rfl
  have hev : (runDetector evs (Comms.spawn w)).events = changes false (levelsOf evs) := by
    rw [h.1]; simp [Comms.spawn]
  have hout : ∀ l, (runDetector (eagerly l) (Comms.spawn w)).buttonsOut = changes false l := by
    intro l
    rw [(runDetector_eagerly l (Comms.spawn w) hw rfl hb).1]
    simp [Comms.spawn]
  refine ⟨?_, hev, ?_, ?_, ?_, ⟨levelsOf_eagerly levels, hout levels, ?_⟩, ?_⟩
  · rw [h.2]; simp [Comms.spawn]
  · rw [hev]; exact changes_alternates _ false
  · have h2 := runDetector_trace
      ([false, false, true, true, false].map fun b =>
        DetectorEvent.deliver (frameWithButton b)) (Comms.spawn w) hw rfl
    rw [h2.1]
    simp [Comms.spawn, levelsOf, frameWithButton, changes]
  · intro s fr c hs hr hc
    exact ⟨(deliver_running fr s hs hr).2.2.1, deliver_channel fr s c hs hr hc⟩
  · rw [hout]; exact changes_alternates _ false
  · rw [hout]; simp [changes]

/-- Witness of C3: the levels true, false, false, true with a consumer receive
after each, on the session left by a successful `InitSpine`. -/
theorem button_edge_detection_witness :
    (runDetector (eagerly [true, false, false, true])
        (Comms.spawn (InitSpine (World.boot (fun _ => 1) (fun k => rawFrame k 1 0))).2)).buttonsOut
      = changes false [true, false, false, true] :=
  (button_edge_detection (InitSpine (World.boot (fun _ => 1) (fun k => rawFrame k 1 0))).2
    (by decide) rfl [] [true, false, false, true]).2.2.2.2.2.1.2.1

/-- C10. The button goroutine sets its pressed state to the level of every frame
delivered to it, also when the button channel is full and the offer is
dropped.  With the levels true, false, true and a consumer that receives only
after the second level, the offers are press, release, press and the consumer
receives press, press: the received events do not alternate.  The same
happens in the whole system on a transport whose forwarded frames carry these
levels. -/
theorem dropped_release_gives_two_presses (w : World) (hw : w.spineInited = true)
    (hb : w.buttonChannel = some (Chan.make Bool 1)) :
    (∀ (s : Comms) (fr : DataFrame) (c : Chan Bool),
      s.w.spineInited = true → s.buttonReturned = false →
      s.w.buttonChannel = some c → c.cap = 1 → c.buf.length = 1 →
      fr.ButtonState ≠ s.bStatus →
        (deliver fr s).bStatus = fr.ButtonState ∧
        (deliver fr s).events = s.events ++ [fr.ButtonState] ∧
        (deliver fr s).w.buttonChannel = some c) ∧
    ((runDetector
        [DetectorEvent.deliver (frameWithButton true),
         DetectorEvent.deliver (frameWithButton false),
         DetectorEvent.recvButton,
         DetectorEvent.deliver (frameWithButton true),
         DetectorEvent.recvButton]
        (Comms.spawn w)).events = [true, false, true] ∧
     (runDetector
        [DetectorEvent.deliver (frameWithButton true),
         DetectorEvent.deliver (frameWithButton false),
         DetectorEvent.recvButton,
         DetectorEvent.deliver (frameWithButton true),
         DetectorEvent.recvButton]
        (Comms.spawn w)).buttonsOut = [true, true]) ∧
    ¬ AlternatesFrom true [true, true] ∧
    ((run
        [Action.acquire, Action.acquire, Action.detect,
         Action.acquire, Action.acquire, Action.detect, Action.recvButton,
         Action.acquire, Action.acquire, Action.detect, Action.recvButton]
        (Comms.spawn (InitSpine (World.boot (fun _ => 1) pressReleaseFrames)).2)).events
        = [true, false, true] ∧
     (run
        [Action.acquire, Action.acquire, Action.detect,
         Action.acquire, Action.acquire, Action.detect, Action.recvButton,
         Action.acquire, Action.acquire, Action.detect, Action.recvButton]
        (Comms.spawn (InitSpine (World.boot (fun _ => 1) pressReleaseFrames)).2)).buttonsOut
        = [true, true]) := by
  refine ⟨?_, ⟨?_, ?_⟩, ?_, ⟨?_, ?_⟩⟩
  · intro s fr c hs hr hc hcap hlen hne
    have hfull : ¬ (c.buf.length < c.cap) := by omega
    cases hbs : s.bStatus <;> cases hf : fr.ButtonState <;>
      simp_all [deliver, detectBody, offer, Chan.trySend]
  · simp [runDetector, stepDetector, deliver, detectBody, recvButton, Comms.spawn, hw,
      frameWithButton, DataFrame.zero]
  · simp [runDetector, stepDetector, deliver, detectBody, recvButton, Comms.spawn, hw, hb,
      frameWithButton, DataFrame.zero, offer, take, Chan.trySend, Chan.recv, Chan.make]
  · simp [AlternatesFrom]
  · decide
  · decide

/-- Witness of C10 on the session left by a successful `InitSpine`. -/
theorem dropped_release_gives_two_presses_witness :
    (runDetector
        [DetectorEvent.deliver (frameWithButton true),
         DetectorEvent.deliver (frameWithButton false),
         DetectorEvent.recvButton,
         DetectorEvent.deliver (frameWithButton true),
         DetectorEvent.recvButton]
        (Comms.spawn (InitSpine (World.boot (fun _ => 1) (fun k => rawFrame k 1 0))).2)).buttonsOut
      = [true, true] :=
  (dropped_release_gives_two_presses
    (InitSpine (World.boot (fun _ => 1) (fun k => rawFrame k 1 0))).2
    (by decide) rfl).2.1.2

/-! ## Single-slot channels -/

theorem trySend_of_empty {α : Type} (c : Chan α) (v : α) (hcap : c.cap = 1) (hb : c.buf = []) :
    (c.trySend v).buf = [v] ∧ (c.trySend v).cap = 1 := by
  simp [Chan.trySend, hcap, hb]

theorem trySend_of_full {α : Type} (c : Chan α) (v : α) (hcap : c.cap = 1) (hb : c.buf ≠ []) :
    c.trySend v = c := by
  have : ¬ (c.buf.length < c.cap) := by
    have := List.length_pos.mpr hb
    omega
  simp [Chan.trySend, this]

theorem trySend_keeps {α : Type} (c : Chan α) (v : α) (out tr : List α) (hcap : c.cap = 1)
    (hlen : c.buf.length ≤ 1) (hsub : (out ++ c.buf).Sublist tr) :
    (c.trySend v).cap = 1 ∧ (c.trySend v).buf.length ≤ 1 ∧
    (out ++ (c.trySend v).buf).Sublist (tr ++ [v]) := by
  by_cases hb : c.buf = []
  · obtain ⟨h1, h2⟩ := trySend_of_empty c v hcap hb
    rw [hb, List.append_nil] at hsub
    rw [h1]
    exact ⟨h2, by simp, hsub.append (List.Sublist.refl [v])⟩
  · rw [trySend_of_full c v hcap hb]
    exact ⟨hcap, hlen, hsub.trans (List.sublist_append_left tr [v])⟩

theorem recv_keeps {α : Type} (c : Chan α) (out tr : List α) (hcap : c.cap = 1)
    (hlen : c.buf.length ≤ 1) (hsub : (out ++ c.buf).Sublist tr) :
    (c.recv).2.cap = 1 ∧ (c.recv).2.buf.length ≤ 1 ∧
    ((out ++ ((c.recv).1).toList) ++ (c.recv).2.buf).Sublist tr := by
  obtain ⟨cap, buf⟩ := c
  cases buf with
  | nil => exact ⟨hcap, hlen, by simpa [Chan.recv] using hsub⟩
  | cons v rest =>
    simp only [List.length_cons] at hlen
    refine ⟨hcap, ?_, ?_⟩
    · simp only [Chan.recv]; omega
    · simpa [Chan.recv] using hsub

theorem sentTo_append_pair (t : Slot) (tr : List (Slot × DataFrame)) (f : DataFrame) :
    sentTo t (tr ++ [(Slot.frameChannel, f), (Slot.frameChannelForButton, f)])
      = sentTo t tr ++ [f] := by
  cases t <;> simp [sentTo]

theorem trySend_nonempty {α : Type} (c : Chan α) (v : α) (hcap : c.cap = 1) :
    (c.trySend v).cap = 1 ∧ (c.trySend v).buf ≠ [] := by
  by_cases hb : c.buf = []
  · obtain ⟨h1, h2⟩ := trySend_of_empty c v hcap hb
    exact ⟨h2, by simp [h1]⟩
  · rw [trySend_of_full c v hcap hb]
    exact ⟨hcap, hb⟩

theorem trySend_twice {α : Type} (c : Chan α) (f1 f2 : α) (hcap : c.cap = 1) :
    (c.trySend f1).trySend f2 = c.trySend f1 :=
  trySend_of_full (c.trySend f1) f2 (trySend_nonempty c f1 hcap).1 (trySend_nonempty c f1 hcap).2

/-- The two branches of one iteration of the acquisition goroutine on a running
session. -/
theorem acquire_running (s : Comms) (hw : s.w.spineInited = true) (hr : s.acqReturned = false) :
    (s.returnFrame = false →
      acquire s = { s with w := s.w.afterReads 1, returnFrame := true }) ∧
    (s.returnFrame = true →
      acquire s =
        { s with
          w := { s.w.afterReads 1 with frameChannel := offer s.w.frameChannel (frameAt s.w 0) }
          returnFrame := false
          frameChannelForButton := s.frameChannelForButton.trySend (frameAt s.w 0)
          forwarded := s.forwarded ++
            [(Slot.frameChannel, frameAt s.w 0), (Slot.frameChannelForButton, frameAt s.w 0)] }) := by
  constructor <;> intro hf <;> simp [acquire, hw, hr, hf, readFrame_running hw, World.afterReads]

/-- C5, as the code has it.  On a slot of capacity 1, two offers with no receive
between them leave the slot as the first offer left it: the later value is
dropped.  The slot then holds the earlier value if it was empty before the
first offer, and otherwise what it held before.  The same holds for the two
slots of the acquisition goroutine across two consecutive forwards. -/
theorem second_offer_is_dropped {α : Type} (c : Chan α) (f1 f2 : α) (hcap : c.cap = 1) :
    (c.trySend f1).trySend f2 = c.trySend f1 ∧
    (c.buf = [] → ((c.trySend f1).trySend f2).buf = [f1]) ∧
    (c.buf ≠ [] → (c.trySend f1).trySend f2 = c) ∧
    offer (offer (some c) f1) f2 = offer (some c) f1 ∧
    (∀ (s : Comms) (d : Chan DataFrame), s.w.spineInited = true → s.acqReturned = false →
      s.returnFrame = true → s.w.frameChannel = some d → d.cap = 1 →
      s.frameChannelForButton.cap = 1 →
        (acquire (acquire (acquire s))).w.frameChannel = (acquire s).w.frameChannel ∧
        (acquire (acquire (acquire s))).frameChannelForButton
          = (acquire s).frameChannelForButton ∧
        (acquire (acquire (acquire s))).forwarded = s.forwarded ++
          [(Slot.frameChannel, frameAt s.w 0), (Slot.frameChannelForButton, frameAt s.w 0),
           (Slot.frameChannel, frameAt s.w 2), (Slot.frameChannelForButton, frameAt s.w 2)]) := by
  have h2 := trySend_twice c f1 f2 hcap
  refine ⟨h2, fun hb => ?_, fun hb => ?_, ?_, ?_⟩
  · rw [h2]; exact (trySend_of_empty c f1 hcap hb).1
  · rw [h2]; exact trySend_of_full c f1 hcap hb
  · simp [offer, h2]
  · intro s d hw hr hf hd hdcap hbcap
    have e1 := (acquire_running s hw hr).2 hf
    have e2 := (acquire_running (acquire s) (by rw [e1]; exact hw) (by rw [e1]; exact hr)).1
      (by rw [e1])
    have e3 := (acquire_running (acquire (acquire s)) (by rw [e2, e1]; exact hw)
      (by rw [e2, e1]; exact hr)).2 (by rw [e2])
    rw [e3, e2, e1]
    simp only [hd, offer, Option.map_some', trySend_twice d _ _ hdcap,
      trySend_twice s.frameChannelForButton _ _ hbcap, World.afterReads, frameAt]
    simp [Nat.add_assoc]

/-- Witness of C5 as the code has it: an empty slot of capacity 1 offered 10 and
then 20 holds 10. -/
theorem second_offer_is_dropped_witness :
    (((Chan.make Nat 1).trySend 10).trySend 20).buf = [10] :=
  (second_offer_is_dropped (Chan.make Nat 1) 10 20 rfl).2.1 rfl

/-- C5 as stated fails.  An empty slot of capacity 1 offered the frame with
sequence number 1 and then the frame with sequence number 2 holds the first,
not the second.  In the running system, four reads with no receive forward
the frames numbered 2 and 4, and the frame channel then holds frame 2. -/
theorem later_frame_wins_counterexample :
    ((((Chan.make DataFrame 1).trySend (decodeFrame (rawFrame 1 0 0))).trySend
        (decodeFrame (rawFrame 2 0 0))).buf.map DataFrame.Seq = [1] ∧
     (((Chan.make DataFrame 1).trySend (decodeFrame (rawFrame 1 0 0))).trySend
        (decodeFrame (rawFrame 2 0 0))).buf.map DataFrame.Seq ≠ [2]) ∧
    ((sentTo Slot.frameChannel
        (run [Action.acquire, Action.acquire, Action.acquire, Action.acquire]
          (Comms.spawn (InitSpine (World.boot (fun _ => 1) (fun k => rawFrame k 1 0))).2)).forwarded).map
        DataFrame.Seq = [2, 4] ∧
     (run [Action.acquire, Action.acquire, Action.acquire, Action.acquire]
        (Comms.spawn (InitSpine (World.boot (fun _ => 1) (fun k => rawFrame k 1 0))).2)).w.frameChannel.map
        (fun c => c.buf.map DataFrame.Seq) = some [2]) := by
  refine ⟨⟨?_, ?_⟩, ?_, ?_⟩ <;> decide

/-! ## The acquisition goroutine -/

theorem run_append (acts : List Action) (a : Action) (s : Comms) :
    run (acts ++ [a]) s = step (run acts s) a := by
  simp [run, List.foldl_append]

theorem deliver_keeps_acq (fr : DataFrame) (s : Comms) :
    (deliver fr s).w.spineInited = s.w.spineInited ∧
    (deliver fr s).acqReturned = s.acqReturned ∧
    (deliver fr s).w.lib = s.w.lib ∧
    (deliver fr s).returnFrame = s.returnFrame ∧
    (deliver fr s).forwarded = s.forwarded := by
  unfold deliver detectBody
  split
  · exact ⟨rfl, rfl, rfl, rfl, rfl⟩
  · split
    · exact ⟨rfl, rfl, rfl, rfl, rfl⟩
    · split
      · exact ⟨rfl, rfl, rfl, rfl, rfl⟩
      · split <;> exact ⟨rfl, rfl, rfl, rfl, rfl⟩

theorem detect_keeps_acq (s : Comms) :
    (detect s).w.spineInited = s.w.spineInited ∧
    (detect s).acqReturned = s.acqReturned ∧
    (detect s).w.lib = s.w.lib ∧
    (detect s).returnFrame = s.returnFrame ∧
    (detect s).forwarded = s.forwarded := by
  unfold detect
  split
  · exact ⟨rfl, rfl, rfl, rfl, rfl⟩
  · split
    · exact ⟨rfl, rfl, rfl, rfl, rfl⟩
    · exact deliver_keeps_acq _ _

theorem forwardedAfter_succ (w : World) (n : Nat) :
    forwardedAfter w (n + 1) = forwardedAfter w n ++
      [(Slot.frameChannel, frameAt w (2 * n + 1)),
       (Slot.frameChannelForButton, frameAt w (2 * n + 1))] := by
  simp [forwardedAfter, List.range_succ]

theorem sentTo_forwardedAfter (t : Slot) (w : World) (n : Nat) :
    sentTo t (forwardedAfter w n) = (List.range n).map fun j => frameAt w (2 * j + 1) := by
  induction n with
  | zero => simp [forwardedAfter, sentTo]
  | succ n ih => rw [forwardedAfter_succ, sentTo_append_pair, ih, List.range_succ]; simp

theorem run_acquisition (w : World) (hw : w.spineInited = true) (acts : List Action) :
    (run acts (Comms.spawn w)).w.spineInited = true ∧
    (run acts (Comms.spawn w)).acqReturned = false ∧
    (run acts (Comms.spawn w)).w.lib.frames = w.lib.frames ∧
    (run acts (Comms.spawn w)).w.lib.reads = w.lib.reads + acts.count Action.acquire ∧
    (run acts (Comms.spawn w)).returnFrame = decide (acts.count Action.acquire % 2 = 1) ∧
    (run acts (Comms.spawn w)).forwarded
      = forwardedAfter w (acts.count Action.acquire / 2) := by
  induction acts using List.reverseRecOn with
  | nil => simp [run, Comms.spawn, hw, forwardedAfter]
  | append_singleton acts a ih =>
    obtain ⟨h1, h2, h3, h4, h5, h6⟩ := ih
    rw [run_append, List.count_append]
    cases a with
    | acquire =>
      have hcount : List.count Action.acquire [Action.acquire] = 1 := by simp
      rw [hcount]
      have hfr : frameAt (run acts (Comms.spawn w)).w 0
          = frameAt w (acts.count Action.acquire) := by
        simp [frameAt, h3, h4]
      obtain ⟨ha, hb⟩ := acquire_running (run acts (Comms.spawn w)) h1 h2
      simp only [step]
      by_cases hodd : acts.count Action.acquire % 2 = 1
      · have hrf : (run acts (Comms.spawn w)).returnFrame = true := by rw [h5]; simp [hodd]
        have hdiv : (acts.count Action.acquire + 1) / 2 = acts.count Action.acquire / 2 + 1 := by
          omega
        have hidx : 2 * (acts.count Action.acquire / 2) + 1 = acts.count Action.acquire := by
          omega
        have hpar : ¬ ((acts.count Action.acquire + 1) % 2 = 1) := by omega
        rw [hb hrf, hdiv, forwardedAfter_succ, hidx, hfr]
        refine ⟨h1, h2, h3, ?_, ?_, ?_⟩
        · simp only [World.afterReads]; omega
        · simp [hpar]
        · simp only [h6]
      · have hrf : (run acts (Comms.spawn w)).returnFrame = false := by rw [h5]; simp [hodd]
        have hdiv : (acts.count Action.acquire + 1) / 2 = acts.count Action.acquire / 2 := by
          omega
        have hpar : (acts.count Action.acquire + 1) % 2 = 1 := by omega
        rw [ha hrf, hdiv]
        refine ⟨h1, h2, h3, ?_, ?_, h6⟩
        · simp only [World.afterReads]; omega
        · simp [hpar]
    | detect =>
      have hcount : List.count Action.acquire [Action.detect] = 0 := by simp
      obtain ⟨k1, k2, k3, k4, k5⟩ := detect_keeps_acq (run acts (Comms.spawn w))
      simp only [step, hcount, Nat.add_zero]
      rw [k1, k2, k3, k4, k5]
      exact ⟨h1, h2, h3, h4, h5, h6⟩
    | recvFrame =>
      have hcount : List.count Action.acquire [Action.recvFrame] = 0 := by simp
      simp only [step, hcount, Nat.add_zero]
      exact ⟨h1, h2, h3, h4, h5, h6⟩
    | recvButton =>
      have hcount : List.count Action.acquire [Action.recvButton] = 0 := by simp
      simp only [step, hcount, Nat.add_zero]
      exact ⟨h1, h2, h3, h4, h5, h6⟩

theorem acquire_channels (s : Comms) (c : Chan DataFrame) (hw : s.w.spineInited = true)
    (hr : s.acqReturned = false) (hc : s.w.frameChannel = some c) :
    (s.returnFrame = true →
      (acquire s).w.frameChannel = some (c.trySend (frameAt s.w 0)) ∧
      (acquire s).frameChannelForButton = s.frameChannelForButton.trySend (frameAt s.w 0)) ∧
    (s.returnFrame = false →
      (acquire s).w.frameChannel = some c ∧
      (acquire s).frameChannelForButton = s.frameChannelForButton) := by
  obtain ⟨ha, hb⟩ := acquire_running s hw hr
  constructor
  · intro hf
    rw [hb hf]
    exact ⟨by show offer s.w.frameChannel (frameAt s.w 0) = _; rw [hc]; rfl, rfl⟩
  · intro hf
    rw [ha hf]
    exact ⟨hc, rfl⟩

theorem detectBody_keeps (fr : DataFrame) (s : Comms) (hw : s.w.spineInited = true) :
    (detectBody fr s).buttonReturned = s.buttonReturned ∧
    (detectBody fr s).w.frameChannel = s.w.frameChannel ∧
    (detectBody fr s).frameChannelForButton = s.frameChannelForButton ∧
    (detectBody fr s).framesOut = s.framesOut ∧
    (detectBody fr s).delivered = s.delivered := by
  cases hb : s.bStatus <;> cases hf : fr.ButtonState <;> simp [detectBody, hw, hb, hf]

theorem detect_idle (s : Comms) (hb : s.frameChannelForButton.buf = []) : detect s = s := by
  unfold detect
  split
  · rfl
  · simp [Chan.recv, hb]

theorem detect_takes (s : Comms) (f : DataFrame) (hw : s.w.spineInited = true)
    (hr : s.buttonReturned = false) (hb : s.frameChannelForButton = ⟨1, [f]⟩) :
    (detect s).buttonReturned = false ∧
    (detect s).w.frameChannel = s.w.frameChannel ∧
    (detect s).frameChannelForButton = ⟨1, []⟩ ∧
    (detect s).framesOut = s.framesOut ∧
    (detect s).delivered = s.delivered ++ [f] := by
  have hd : detect s = detectBody f
      { s with frameChannelForButton := ⟨1, []⟩, delivered := s.delivered ++ [f] } := by
    simp [detect, deliver, hr, hb, Chan.recv]
  obtain ⟨k1, k2, k3, k4, k5⟩ := detectBody_keeps f
    { s with frameChannelForButton := ⟨1, []⟩, delivered := s.delivered ++ [f] } hw
  rw [hd, k1, k2, k3, k4, k5]
  exact ⟨hr, rfl, rfl, rfl, rfl⟩

/-- One round of the eager schedule from a state with both slots empty. -/
theorem eager_round (s : Comms) (hw : s.w.spineInited = true) (hr : s.acqReturned = false)
    (hbr : s.buttonReturned = false) (hc : s.w.frameChannel = some (Chan.make DataFrame 1))
    (hb : s.frameChannelForButton = Chan.make DataFrame 1) :
    ((detect (recvFrame (acquire s))).w.spineInited = true ∧
     (detect (recvFrame (acquire s))).acqReturned = false ∧
     (detect (recvFrame (acquire s))).buttonReturned = false ∧
     (detect (recvFrame (acquire s))).w.lib.frames = s.w.lib.frames ∧
     (detect (recvFrame (acquire s))).w.lib.reads = s.w.lib.reads + 1 ∧
     (detect (recvFrame (acquire s))).returnFrame = !s.returnFrame) ∧
    ((detect (recvFrame (acquire s))).w.frameChannel = some (Chan.make DataFrame 1) ∧
     (detect (recvFrame (acquire s))).frameChannelForButton = Chan.make DataFrame 1) ∧
    ((detect (recvFrame (acquire s))).framesOut
       = s.framesOut ++ (if s.returnFrame then [frameAt s.w 0] else []) ∧
     (detect (recvFrame (acquire s))).delivered
       = s.delivered ++ (if s.returnFrame then [frameAt s.w 0] else [])) := by
  obtain ⟨ha, hfw⟩ := acquire_running s hw hr
  obtain ⟨q1, q2, q3, q4, _⟩ := detect_keeps_acq (recvFrame (acquire s))
  cases hrf : s.returnFrame
  · have e1 := ha hrf
    have e2 : recvFrame (acquire s) = acquire s := by
      rw [e1]
      simp [recvFrame, take, World.afterReads, hc, Chan.recv, Chan.make]
    have e3 : detect (acquire s) = acquire s := by
      apply detect_idle
      rw [e1]
      simp [hb, Chan.make]
    rw [e2, e3, e1]
    simp [World.afterReads, hw, hr, hbr, hc, hb]
  · have e1 := hfw hrf
    have hs2 : (recvFrame (acquire s)).w.spineInited = true := by rw [e1]; exact hw
    have hr2 : (recvFrame (acquire s)).buttonReturned = false := by rw [e1]; exact hbr
    have hb2 : (recvFrame (acquire s)).frameChannelForButton = ⟨1, [frameAt s.w 0]⟩ := by
      rw [e1]
      simp [recvFrame, hb, Chan.make, Chan.trySend]
    obtain ⟨d1, d2, d3, d4, d5⟩ := detect_takes (recvFrame (acquire s)) (frameAt s.w 0) hs2 hr2 hb2
    rw [q1, q2, q3, q4, d1, d2, d3, d4, d5, e1]
    simp [recvFrame, take, offer, World.afterReads, hw, hr, hc, Chan.recv, Chan.make,
      Chan.trySend]

theorem count_eagerRounds (n : Nat) : (eagerRounds n).count Action.acquire = n := by
  induction n with
  | zero => rfl
  | succ n ih => simp [eagerRounds, List.count_append, ih]

theorem run_eagerRounds (w : World) (hw : w.spineInited = true)
    (hf : w.frameChannel = some (Chan.make DataFrame 1)) (n : Nat) :
    ((run (eagerRounds n) (Comms.spawn w)).w.spineInited = true ∧
     (run (eagerRounds n) (Comms.spawn w)).acqReturned = false ∧
     (run (eagerRounds n) (Comms.spawn w)).buttonReturned = false ∧
     (run (eagerRounds n) (Comms.spawn w)).w.lib.frames = w.lib.frames ∧
     (run (eagerRounds n) (Comms.spawn w)).w.lib.reads = w.lib.reads + n ∧
     (run (eagerRounds n) (Comms.spawn w)).returnFrame = decide (n % 2 = 1)) ∧
    ((run (eagerRounds n) (Comms.spawn w)).w.frameChannel = some (Chan.make DataFrame 1) ∧
     (run (eagerRounds n) (Comms.spawn w)).frameChannelForButton = Chan.make DataFrame 1) ∧
    ((run (eagerRounds n) (Comms.spawn w)).framesOut
       = (List.range (n / 2)).map (fun j => frameAt w (2 * j + 1)) ∧
     (run (eagerRounds n) (Comms.spawn w)).delivered
       = (List.range (n / 2)).map (fun j => frameAt w (2 * j + 1))) := by
  induction n with
  | zero => simp [eagerRounds, run, Comms.spawn, hw, hf]
  | succ n ih =>
    obtain ⟨⟨h1, h2, h3, h4, h5, h6⟩, ⟨h7, h8⟩, ⟨h9, h10⟩⟩ := ih
    have hrun : run (eagerRounds (n + 1)) (Comms.spawn w)
        = detect (recvFrame (acquire (run (eagerRounds n) (Comms.spawn w)))) := by
      simp [eagerRounds, run, List.foldl_append, step]
    obtain ⟨⟨r1, r2, r3, r4, r5, r6⟩, ⟨r7, r8⟩, ⟨r9, r10⟩⟩ :=
      eager_round (run (eagerRounds n) (Comms.spawn w)) h1 h2 h3 h7 h8
    have hfr : frameAt (run (eagerRounds n) (Comms.spawn w)).w 0 = frameAt w n := by
      simp [frameAt, h4, h5]
    rw [hrun, r4, r5, r6, r9, r10, h4, h5, h6, h9, h10, hfr]
    refine ⟨⟨r1, r2, r3, rfl, by omega, ?_⟩, ⟨r7, r8⟩, ?_⟩
    · by_cases hodd : n % 2 = 1
      · have : ¬ ((n + 1) % 2 = 1) := by omega
        simp [hodd, this]
      · have : (n + 1) % 2 = 1 := by omega
        simp [hodd, this]
    · by_cases hodd : n % 2 = 1
      · have hdiv : (n + 1) / 2 = n / 2 + 1 := by omega
        have hidx : 2 * (n / 2) + 1 = n := by omega
        simp [hodd, hdiv, List.range_succ, hidx]
      · have hdiv : (n + 1) / 2 = n / 2 := by omega
        simp [hodd, hdiv]

/-- C4. Let the goroutines start on an initialized session `w` with the frame
channel as `startCommsLoop` makes it, and let any schedule run in which the
acquisition goroutine makes `N` iterations.  Then it has read `N` frames, the
frames at read offsets 0 to `N - 1`, and it has forwarded `N / 2` of them: the
frames at the 1-based read positions 2, 4, 6, ..., in that order.  A forward
is a `trySend` of the frame on the frame channel and on the button input
channel; an iteration that discards its frame leaves both channels as they
are.  When both slots are drained after every iteration, the consumer of the
frame channel and the button goroutine each receive exactly these `n / 2`
frames out of `n` reads, in that order. -/
theorem fan_out_halving (w : World) (hw : w.spineInited = true)
    (hf : w.frameChannel = some (Chan.make DataFrame 1)) (acts : List Action) (n : Nat) :
    (run acts (Comms.spawn w)).w.lib.reads = w.lib.reads + acts.count Action.acquire ∧
    (run acts (Comms.spawn w)).forwarded
      = ((List.range (acts.count Action.acquire / 2)).map fun j => frameAt w (2 * j + 1)).flatMap
          (fun f => [(Slot.frameChannel, f), (Slot.frameChannelForButton, f)]) ∧
    sentTo Slot.frameChannel (run acts (Comms.spawn w)).forwarded
      = (List.range (acts.count Action.acquire / 2)).map (fun j => frameAt w (2 * j + 1)) ∧
    sentTo Slot.frameChannelForButton (run acts (Comms.spawn w)).forwarded
      = (List.range (acts.count Action.acquire / 2)).map (fun j => frameAt w (2 * j + 1)) ∧
    (sentTo Slot.frameChannel (run acts (Comms.spawn w)).forwarded).length
      = acts.count Action.acquire / 2 ∧
    (∀ (s : Comms) (c : Chan DataFrame),
      s.w.spineInited = true → s.acqReturned = false → s.w.frameChannel = some c →
      (s.returnFrame = true →
        (acquire s).w.frameChannel = some (c.trySend (frameAt s.w 0)) ∧
        (acquire s).frameChannelForButton
          = s.frameChannelForButton.trySend (frameAt s.w 0)) ∧
      (s.returnFrame = false →
        (acquire s).w.frameChannel = some c ∧
        (acquire s).frameChannelForButton = s.frameChannelForButton)) ∧
    ((eagerRounds n).count Action.acquire = n ∧
     (run (eagerRounds n) (Comms.spawn w)).w.lib.reads = w.lib.reads + n ∧
     (run (eagerRounds n) (Comms.spawn w)).framesOut
       = (List.range (n / 2)).map (fun j => frameAt w (2 * j + 1)) ∧
     (run (eagerRounds n) (Comms.spawn w)).delivered
       = (List.range (n / 2)).map (fun j => frameAt w (2 * j + 1)) ∧
     (run (eagerRounds n) (Comms.spawn w)).framesOut.length = n / 2) := by
  obtain ⟨_, _, _, h4, _, h6⟩ := run_acquisition w hw acts
  obtain ⟨⟨_, _, _, _, e5, _⟩, _, ⟨e9, e10⟩⟩ := run_eagerRounds w hw hf n
  refine ⟨h4, ?_, ?_, ?_, ?_, ?_, ⟨count_eagerRounds n, e5, e9, e10, ?_⟩⟩
  · rw [h6]; rfl
  · rw [h6, sentTo_forwardedAfter]
  · rw [h6, sentTo_forwardedAfter]
  · rw [h6, sentTo_forwardedAfter]; simp
  · intro s c hs hr hc
    exact acquire_channels s c hs hr hc
  · rw [e9]; simp

/-- Witness of C4: five reads with both slots drained after each, on the session
left by a successful `InitSpine`; the consumer receives two frames. -/
theorem fan_out_halving_witness :
    (run (eagerRounds 5)
        (Comms.spawn (InitSpine (World.boot (fun _ => 1) (fun k => rawFrame k 1 0))).2)).framesOut.length
      = 5 / 2 :=
  (fan_out_halving (InitSpine (World.boot (fun _ => 1) (fun k => rawFrame k 1 0))).2
    (by decide) rfl [] 5).2.2.2.2.2.2.2.2.2.2

/-! ## Slot capacity and delivery order -/

theorem SlotInv_spawn (w : World) (hf : w.frameChannel = some (Chan.make DataFrame 1))
    (hb : w.buttonChannel = some (Chan.make Bool 1)) : SlotInv (Comms.spawn w) where
  frame := ⟨_, hf, rfl, by simp [Chan.make], by simp [Chan.make, Comms.spawn, sentTo]⟩
  forButton := ⟨rfl, by simp [Chan.make, Comms.spawn], by simp [Chan.make, Comms.spawn, sentTo]⟩
  button := ⟨_, hb, rfl, by simp [Chan.make], by simp [Chan.make, Comms.spawn]⟩

theorem SlotInv_acquire (s : Comms) (h : SlotInv s) : SlotInv (acquire s) := by
  obtain ⟨⟨c, hc, hcap, hlen, hsub⟩, ⟨bcap, blen, bsub⟩, hbtn⟩ := h
  unfold acquire
  split
  · exact ⟨⟨c, hc, hcap, hlen, hsub⟩, ⟨bcap, blen, bsub⟩, hbtn⟩
  · split
    · exact ⟨⟨c, hc, hcap, hlen, hsub⟩, ⟨bcap, blen, bsub⟩, hbtn⟩
    · rename_i hinit
      have hw : s.w.spineInited = true := by simpa using hinit
      rw [readFrame_running hw]
      split
      · exact ⟨⟨c, hc, hcap, hlen, hsub⟩, ⟨bcap, blen, bsub⟩, hbtn⟩
      · obtain ⟨a1, a2, a3⟩ := trySend_keeps c (frameAt s.w 0) s.framesOut _ hcap hlen hsub
        obtain ⟨b1, b2, b3⟩ := trySend_keeps s.frameChannelForButton (frameAt s.w 0)
          s.delivered _ bcap blen bsub
        refine ⟨⟨c.trySend (frameAt s.w 0), ?_, a1, a2, ?_⟩, ⟨b1, b2, ?_⟩, hbtn⟩
        · show offer s.w.frameChannel (frameAt s.w 0) = _
          rw [hc]; rfl
        · show (s.framesOut ++ _).Sublist (sentTo _ (s.forwarded ++ _))
          rw [sentTo_append_pair]; exact a3
        · show (s.delivered ++ _).Sublist (sentTo _ (s.forwarded ++ _))
          rw [sentTo_append_pair]; exact b3

theorem SlotInv_detectBody (fr : DataFrame) (s : Comms) (h : SlotInv s) :
    SlotInv (detectBody fr s) := by
  obtain ⟨hfr, hfb, ⟨c, hc, hcap, hlen, hsub⟩⟩ := h
  unfold detectBody
  split
  · exact ⟨hfr, hfb, ⟨c, hc, hcap, hlen, hsub⟩⟩
  · split
    · obtain ⟨a1, a2, a3⟩ := trySend_keeps c true s.buttonsOut _ hcap hlen hsub
      exact ⟨hfr, hfb, ⟨c.trySend true, by show offer s.w.buttonChannel true = _; rw [hc]; rfl,
        a1, a2, a3⟩⟩
    · split
      · obtain ⟨a1, a2, a3⟩ := trySend_keeps c false s.buttonsOut _ hcap hlen hsub
        exact ⟨hfr, hfb, ⟨c.trySend false,
          by show offer s.w.buttonChannel false = _; rw [hc]; rfl, a1, a2, a3⟩⟩
      · exact ⟨hfr, hfb, ⟨c, hc, hcap, hlen, hsub⟩⟩

theorem SlotInv_detect (s : Comms) (h : SlotInv s) : SlotInv (detect s) := by
  unfold detect
  split
  · exact h
  · rename_i hret
    cases hrecv : (s.frameChannelForButton.recv).1 with
    | none => exact h
    | some fr =>
      simp only
      have hret2 : s.buttonReturned = false := by simpa using hret
      unfold deliver
      simp only [hret2, Bool.false_eq_true, if_false]
      apply SlotInv_detectBody
      obtain ⟨hfr, ⟨bcap, blen, bsub⟩, hbtn⟩ := h
      obtain ⟨r1, r2, r3⟩ := recv_keeps s.frameChannelForButton s.delivered _ bcap blen bsub
      rw [hrecv] at r3
      exact ⟨hfr, ⟨r1, r2, r3⟩, hbtn⟩

theorem SlotInv_recvFrame (s : Comms) (h : SlotInv s) : SlotInv (recvFrame s) := by
  obtain ⟨⟨c, hc, hcap, hlen, hsub⟩, hfb, hbtn⟩ := h
  obtain ⟨r1, r2, r3⟩ := recv_keeps c s.framesOut _ hcap hlen hsub
  refine ⟨⟨(c.recv).2, ?_, r1, r2, ?_⟩, hfb, hbtn⟩
  · show (take s.w.frameChannel).2 = _
    rw [hc]; rfl
  · show (s.framesOut ++ ((take s.w.frameChannel).1).toList ++ _).Sublist _
    rw [hc]; exact r3

theorem SlotInv_recvButton (s : Comms) (h : SlotInv s) : SlotInv (recvButton s) := by
  obtain ⟨hfr, hfb, ⟨c, hc, hcap, hlen, hsub⟩⟩ := h
  obtain ⟨r1, r2, r3⟩ := recv_keeps c s.buttonsOut _ hcap hlen hsub
  refine ⟨hfr, hfb, ⟨(c.recv).2, ?_, r1, r2, ?_⟩⟩
  · show (take s.w.buttonChannel).2 = _
    rw [hc]; rfl
  · show (s.buttonsOut ++ ((take s.w.buttonChannel).1).toList ++ _).Sublist _
    rw [hc]; exact r3

theorem SlotInv_run (acts : List Action) : ∀ (s : Comms), SlotInv s → SlotInv (run acts s) := by
  induction acts with
  | nil => intro s h; exact h
  | cons a acts ih =>
    intro s h
    show SlotInv (run acts (step s a))
    apply ih
    cases a
    · exact SlotInv_acquire s h
    · exact SlotInv_detect s h
    · exact SlotInv_recvFrame s h
    · exact SlotInv_recvButton s h

theorem acquire_full_frameChannel (s : Comms) (c : Chan DataFrame)
    (hc : s.w.frameChannel = some c) (hcap : c.cap = 1) (hb : c.buf ≠ []) :
    (acquire s).w.frameChannel = some c := by
  unfold acquire
  split
  · exact hc
  · split
    · exact hc
    · rename_i hinit
      have hw : s.w.spineInited = true := by simpa using hinit
      rw [readFrame_running hw]
      split
      · exact hc
      · show offer s.w.frameChannel (frameAt s.w 0) = some c
        rw [hc]
        show some (c.trySend (frameAt s.w 0)) = some c
        rw [trySend_of_full c _ hcap hb]

theorem acquire_full_forButton (s : Comms) (hcap : s.frameChannelForButton.cap = 1)
    (hb : s.frameChannelForButton.buf ≠ []) :
    (acquire s).frameChannelForButton = s.frameChannelForButton := by
  unfold acquire
  split
  · rfl
  · split
    · rfl
    · split
      · rfl
      · exact trySend_of_full _ _ hcap hb

/-- C9. Let the goroutines start with the two exported channels as
`startCommsLoop` makes them and let any schedule of goroutine iterations and
consumer receives run.  In the state reached, each of the three slots holds at
most one value; an iteration of the acquisition goroutine leaves a slot that
holds a value as it is, and so does any offer to it; and what the consumer has
received from the frame channel, what the button goroutine has taken from its
input channel and what the consumer has received from the button channel are
sublists of what was offered to that slot, in the order of the offers. -/
theorem slots_hold_one_and_keep_order (w : World)
    (hf : w.frameChannel = some (Chan.make DataFrame 1))
    (hb : w.buttonChannel = some (Chan.make Bool 1)) (acts : List Action) :
    ((∃ c, (run acts (Comms.spawn w)).w.frameChannel = some c ∧ c.cap = 1 ∧ c.buf.length ≤ 1) ∧
     ((run acts (Comms.spawn w)).frameChannelForButton.cap = 1 ∧
      (run acts (Comms.spawn w)).frameChannelForButton.buf.length ≤ 1) ∧
     (∃ c, (run acts (Comms.spawn w)).w.buttonChannel = some c ∧ c.cap = 1 ∧
       c.buf.length ≤ 1)) ∧
    ((∀ c, (run acts (Comms.spawn w)).w.frameChannel = some c → c.buf ≠ [] →
        (acquire (run acts (Comms.spawn w))).w.frameChannel = some c ∧
        ∀ f, offer (some c) f = some c) ∧
     ((run acts (Comms.spawn w)).frameChannelForButton.buf ≠ [] →
        (acquire (run acts (Comms.spawn w))).frameChannelForButton
          = (run acts (Comms.spawn w)).frameChannelForButton ∧
        ∀ f, (run acts (Comms.spawn w)).frameChannelForButton.trySend f
          = (run acts (Comms.spawn w)).frameChannelForButton) ∧
     (∀ c, (run acts (Comms.spawn w)).w.buttonChannel = some c → c.buf ≠ [] →
        ∀ b, offer (some c) b = some c)) ∧
    ((run acts (Comms.spawn w)).framesOut.Sublist
        (sentTo Slot.frameChannel (run acts (Comms.spawn w)).forwarded) ∧
     (run acts (Comms.spawn w)).delivered.Sublist
        (sentTo Slot.frameChannelForButton (run acts (Comms.spawn w)).forwarded) ∧
     (run acts (Comms.spawn w)).buttonsOut.Sublist (run acts (Comms.spawn w)).events) := by
  obtain ⟨⟨c, hc, hcap, hlen, hsub⟩, ⟨bcap, blen, bsub⟩, ⟨d, hd, dcap, dlen, dsub⟩⟩ :=
    SlotInv_run acts (Comms.spawn w) (SlotInv_spawn w hf hb)
  refine ⟨⟨⟨c, hc, hcap, hlen⟩, ⟨bcap, blen⟩, ⟨d, hd, dcap, dlen⟩⟩, ⟨?_, ?_, ?_⟩, ⟨?_, ?_, ?_⟩⟩
  · intro c2 hc2 hne
    have : c2 = c := by rw [hc] at hc2; exact (Option.some.inj hc2).symm
    subst this
    refine ⟨acquire_full_frameChannel _ c2 hc2 hcap hne, fun f => ?_⟩
    show some (c2.trySend f) = some c2
    rw [trySend_of_full c2 f hcap hne]
  · intro hne
    exact ⟨acquire_full_forButton _ bcap hne, fun f => trySend_of_full _ f bcap hne⟩
  · intro c2 hc2 hne b
    have : c2 = d := by rw [hd] at hc2; exact (Option.some.inj hc2).symm
    subst this
    show some (c2.trySend b) = some c2
    rw [trySend_of_full c2 b dcap hne]
  · exact (List.sublist_append_left _ _).trans hsub
  · exact (List.sublist_append_left _ _).trans bsub
  · exact (List.sublist_append_left _ _).trans dsub

/-- Witness of C9: six reads with one consumer receive after the fourth, on the
session left by a successful `InitSpine`. -/
theorem slots_hold_one_and_keep_order_witness :
    (run [Action.acquire, Action.acquire, Action.acquire, Action.acquire, Action.recvFrame,
          Action.acquire, Action.acquire, Action.recvFrame]
        (Comms.spawn (InitSpine (World.boot (fun _ => 1) (fun k => rawFrame k 1 0))).2)).framesOut.Sublist
      (sentTo Slot.frameChannel
        (run [Action.acquire, Action.acquire, Action.acquire, Action.acquire, Action.recvFrame,
              Action.acquire, Action.acquire, Action.recvFrame]
          (Comms.spawn
            (InitSpine (World.boot (fun _ => 1) (fun k => rawFrame k 1 0))).2)).forwarded) :=
  (slots_hold_one_and_keep_order
    (InitSpine (World.boot (fun _ => 1) (fun k => rawFrame k 1 0))).2 rfl rfl _).2.2.1

end Vbody
